import Mathlib

/-!
Verification development for the wit-factoring underwriting pipeline.

Shallow embedding of the CPU-side matching, filtering and aggregation logic of
the repository (phase 2 bank-statement integration, phase 3 adverse-media staged
filter, phase 4 report-input construction, the OCR document classification batch,
and the ego-search tool), together with theorems settling the specification
claims about them.  External I/O (HTTP, LLM calls) is modelled by passing the
call outcome (`Except`/explicit response values) as an argument; JavaScript
truthiness of possibly-absent string fields is modelled explicitly.
-/

/- ## Common helpers -/

/-- JavaScript truthiness of a possibly-absent string value
(`undefined`/`null`/`""` are falsy). -/
def jsStrTruthy : Option String → Bool
  | none => false
  | some s => !(s == "")

/-- `isPrefixOfL a b` : the character list `a` is a prefix of `b`. -/
def isPrefixOfL : List Char → List Char → Bool
  | [], _ => true
  | _ :: _, [] => false
  | a :: as, b :: bs => a == b && isPrefixOfL as bs

/-- `hasSubstrL sub l` : `sub` occurs contiguously inside `l`. -/
def hasSubstrL (sub : List Char) : List Char → Bool
  | [] => sub.isEmpty
  | c :: t => isPrefixOfL sub (c :: t) || hasSubstrL sub t

/-- JavaScript `s.includes(sub)`. -/
def jsIncludes (s sub : String) : Bool :=
  hasSubstrL sub.data s.data

/- ## Article fetch helper (`fetchArticleContent`, adverse-media stage 2) -/

/-- An HTTP response as seen by the axios client. -/
structure HttpResponse where
  status : Nat
  body : String

/-- Outcome of one network request: either a response arrived (any status) or
the request itself failed (network error, timeout). -/
inductive NetOutcome where
  | response : HttpResponse → NetOutcome
  | netError : NetOutcome

/-- `axios.get(url, { validateStatus: (status) => status < 500 })`: the promise
resolves with the response when its status is < 500, and rejects (throws) for
status ≥ 500 or on a request error. -/
def axiosGetLt500 : NetOutcome → Except Unit HttpResponse
  | .response r => if r.status < 500 then .ok r else .error ()
  | .netError => .error ()

/-- The `try` body of `fetchArticleContent`: await the request, then return the
body on status 200 and `null` otherwise.  An `Except.error` value is an
exception escaping the body. -/
def fetchArticleTry (o : NetOutcome) : Except Unit (Option String) :=
  match axiosGetLt500 o with
  | .ok r => .ok (if r.status == 200 then some r.body else none)
  | .error e => .error e

/-- `fetchArticleContent(url)`: the `try`/`catch` wrapper — any exception from
the body is caught and converted to `null`. -/
def fetchArticleContent (o : NetOutcome) : Except Unit (Option String) :=
  match fetchArticleTry o with
  | .ok v => .ok v
  | .error _ => .ok none

/- ## Phase 2 bank-statement step: step-4 integration (cross-bank transfers and
   other-factoring-company filtering) -/

/-- One cross-bank fund transfer (`crossBankTransfers` entry). -/
structure CrossBankTransfer where
  date : String
  amount : Int
  fromAccount : String
  toAccount : String

/-- One other-factoring-company transaction detected by the bank-statement AI
analysis (`factoringCompaniesDetected` entry). -/
structure FactoringDetection where
  companyName : String
  date : String
  amount : Int
  payerOrPayee : String
  transactionType : String

/-- Projection of a detected transaction to the step's `factoringCompanies`
output entry (drops `payerOrPayee`). -/
structure FactoringCompanyOut where
  companyName : String
  date : String
  amount : Int
  transactionType : String

/-- `excludedCompanies`: credit-card companies and banks excluded from
other-factoring-company detection. -/
def excludedCompanies : List String :=
  ["セゾン", "アメックス", "SMBC", "JC", "IB", "AP", "RKS"]

/-- `isCollateral`: the detected company name and some collateral company name
contain one another (either direction) as substrings. -/
def isCollateralDetected (collateralCompanyNames : List String)
    (f : FactoringDetection) : Bool :=
  collateralCompanyNames.any fun name =>
    jsIncludes f.companyName name || jsIncludes name f.companyName

/-- `isExcluded`: the detected company name or the payer/payee string contains
one of the fixed excluded strings. -/
def isExcludedDetected (f : FactoringDetection) : Bool :=
  excludedCompanies.any fun ex =>
    jsIncludes f.companyName ex || jsIncludes f.payerOrPayee ex

/-- The per-analysis filter applied before pushing detections into
`factoringCompaniesDetected` (keeps a detection iff it is neither a collateral
company nor excluded). -/
def filterFactoringDetected (collateralCompanyNames : List String)
    (l : List FactoringDetection) : List FactoringDetection :=
  l.filter fun f =>
    !(isCollateralDetected collateralCompanyNames f) && !(isExcludedDetected f)

/-- Cross-bank fund-transfer detection: when both bank analyses are present the
branch only logs a TODO ("未実装（Phase 4で対応予定）") and otherwise it logs a
skip; in both branches nothing is appended to the list. -/
def detectCrossBankTransfers {α β : Type}
    (mainBankAnalysis : Option α) (subBankAnalysis : Option β) :
    List CrossBankTransfer :=
  match mainBankAnalysis, subBankAnalysis with
  | some _, some _ => []
  | _, _ => []

/-- The combined `factoringCompaniesDetected` list built in step 4: the filtered
detections of the main analysis (when present) followed by those of the sub
analysis (when present). -/
def integrateFactoringCompanies (collateralCompanyNames : List String)
    (mainDetected subDetected : Option (List FactoringDetection)) :
    List FactoringDetection :=
  (match mainDetected with
   | some l => filterFactoringDetected collateralCompanyNames l
   | none => []) ++
  (match subDetected with
   | some l => filterFactoringDetected collateralCompanyNames l
   | none => [])

/-- Projection used when building the step result's `factoringCompanies`. -/
def projectFactoring (f : FactoringDetection) : FactoringCompanyOut :=
  { companyName := f.companyName, date := f.date, amount := f.amount,
    transactionType := f.transactionType }

/-- The step-4 integration slice of the phase-2 step output. -/
structure Phase2IntegrationOut where
  crossBankTransfers : List CrossBankTransfer
  factoringCompanies : List FactoringCompanyOut

/-- Step 4 of `phase2BankStatementStep`: cross-bank transfer detection followed
by other-factoring-company integration; the `Option` arguments are the two bank
analyses' `factoringCompaniesDetected` lists (absent when the corresponding bank
statement was absent). -/
def phase2Integration (collateralCompanyNames : List String)
    (mainDetected subDetected : Option (List FactoringDetection)) :
    Phase2IntegrationOut :=
  { crossBankTransfers := detectCrossBankTransfers mainDetected subDetected
    factoringCompanies :=
      (integrateFactoringCompanies collateralCompanyNames mainDetected
        subDetected).map projectFactoring }

/-- `SubstrOf a b` : `a` occurs inside `b` (JavaScript `b.includes(a)`). -/
def SubstrOf (a b : String) : Prop := jsIncludes b a = true

/- ## Phase 2 bank-statement step: collateral reconciliation output mapping -/

/-- One bank transaction as listed in `matchedTransactions` /
`unmatchedTransactions` of the AI analysis schema. -/
structure MatchedTx where
  date : String
  amount : Int
  payerName : String

/-- One entry of `monthlyAnalysis` in the AI analysis result (the generateObject
schema of the main-bank analysis). -/
structure MonthlyAnalysisEntry where
  month : String
  expectedAmount : Int
  totalMatched : Int
  matched : Bool
  matchType : String
  actualSource : String
  matchedTransactions : List MatchedTx
  unmatchedTransactions : List MatchedTx

/-- One entry of `monthlyResults` in the step output. -/
structure MonthlyResultOut where
  month : String
  expected : Int
  actual : Int
  actualSource : String
  matched : Bool
  matchType : String
  matchedTransactions : List MatchedTx
  unmatchedTransactions : List MatchedTx

/-- The per-month mapping performed when building the step result
(`monthlyResults: match.monthlyAnalysis.map(...)`): fields are copied through;
`actualSource || "不明"` and the `|| []` guards are the only transformations. -/
def mapMonthlyResult (ma : MonthlyAnalysisEntry) : MonthlyResultOut :=
  { month := ma.month, expected := ma.expectedAmount, actual := ma.totalMatched,
    actualSource := if ma.actualSource == "" then "不明" else ma.actualSource,
    matched := ma.matched, matchType := ma.matchType,
    matchedTransactions := ma.matchedTransactions,
    unmatchedTransactions := ma.unmatchedTransactions }

/-- One entry of `collateralMatches` in the AI analysis result. -/
structure CollateralMatchIn where
  company : String
  allTransactions : List MatchedTx
  expectedValues : List (String × Int)
  monthlyAnalysis : List MonthlyAnalysisEntry

/-- One entry of `collateralMatches` in the step output. -/
structure CollateralMatchOut where
  company : String
  allTransactions : List MatchedTx
  expectedValues : List (String × Int)
  monthlyResults : List MonthlyResultOut

/-- The per-company mapping performed when building the step result. -/
def mapCollateralMatch (m : CollateralMatchIn) : CollateralMatchOut :=
  { company := m.company, allTransactions := m.allTransactions,
    expectedValues := m.expectedValues,
    monthlyResults := m.monthlyAnalysis.map mapMonthlyResult }

/-- The `collateralMatches` part of the phase-2 step output, as a function of
the AI analysis object (`mainBankAnalysis.collateralMatches`). -/
def phase2CollateralOutput (ms : List CollateralMatchIn) :
    List CollateralMatchOut :=
  ms.map mapCollateralMatch

/-- Sum of the amounts of a transaction list. -/
def txSum (l : List MatchedTx) : Int :=
  (l.map (·.amount)).sum

/-- The claim as stated: in every step output, a period marked `matched` has
the sum of its `matchedTransactions` amounts within ±1,000 of its expected
amount. -/
def phase2ToleranceInvariant : Prop :=
  ∀ ms : List CollateralMatchIn,
    ∀ c ∈ phase2CollateralOutput ms, ∀ mr ∈ c.monthlyResults,
      mr.matched = true → (txSum mr.matchedTransactions - mr.expected).natAbs ≤ 1000

/-- A schema-valid AI analysis value whose single period is marked matched
while the sum of its matched transactions (1) is 999,999 away from the expected
amount (1,000,000): the schema and the step's mapping accept it unchanged. -/
def outOfToleranceEntry : MonthlyAnalysisEntry :=
  { month := "2025-08", expectedAmount := 1000000,
    totalMatched := 1, matched := true, matchType := "単独一致",
    actualSource := "¥1 ← カ)サンプル",
    matchedTransactions := [⟨"08-01", 1, "カ)サンプル"⟩],
    unmatchedTransactions := [] }

/-- The analysis value wrapping `outOfToleranceEntry`. -/
def outOfToleranceAnalysis : List CollateralMatchIn :=
  [{ company := "株式会社サンプル工務店", allTransactions := [],
     expectedValues := [("2025-08", 1000000)],
     monthlyAnalysis := [outOfToleranceEntry] }]

/-- A monthly-analysis entry that does satisfy the ±1,000 tolerance. -/
def inToleranceEntry : MonthlyAnalysisEntry :=
  { month := "2025-08", expectedAmount := 1000000, totalMatched := 1000000,
    matched := true, matchType := "単独一致",
    actualSource := "¥1,000,000 ← カ)サンプル",
    matchedTransactions := [⟨"07-04", 1000000, "カ)サンプル"⟩],
    unmatchedTransactions := [] }

/-- A collateral match whose only period is `inToleranceEntry`. -/
def inToleranceMatch : CollateralMatchIn :=
  { company := "株式会社サンプル工務店",
    allTransactions := [⟨"07-04", 1000000, "カ)サンプル"⟩],
    expectedValues := [("2025-08", 1000000)],
    monthlyAnalysis := [inToleranceEntry] }

/- ## Phase 3 adverse-media staged filter (part of `phase3VerificationStep`) -/

/-- One web-search result of a negative-information query; `htmlContent` is
absent before stage 1.5 and `none` when the article fetch failed. -/
structure WebSearchResult where
  title : String
  url : String
  snippet : String
  htmlContent : Option String

/-- One article already fetched from a fraud-information site. -/
structure FraudArticle where
  title : String
  url : String
  htmlContent : String

/-- One fraud-information-site check of the ego-search tool output. -/
structure FraudSiteData where
  siteName : String
  found : Bool
  articles : Option (List FraudArticle)

/-- One negative-search query of the ego-search tool output. -/
structure QueryData where
  query : String
  found : Bool
  results : Option (List WebSearchResult)

/-- The ego-search result of one subject (`egoSearchResult`). -/
structure PersonEgoData where
  fraudSiteResults : List FraudSiteData
  negativeSearchResults : List QueryData

/-- The recurring guard `!queryResult.found || !queryResult.results ||
queryResult.results.length === 0`, as the positive condition. -/
def queryHasResults (q : QueryData) : Bool :=
  q.found && (match q.results with | some rs => !rs.isEmpty | none => false)

/-- The fraud-site guard `fraudSite.found && fraudSite.articles &&
fraudSite.articles.length > 0`. -/
def fraudSiteHasArticles (fs : FraudSiteData) : Bool :=
  fs.found && (match fs.articles with | some l => !l.isEmpty | none => false)

/-- Stage-1 per-result verdict. -/
structure ResultAnalysis1 where
  resultIndex : Nat
  needsFullCheck : Bool
  reason : String

/-- Stage-1 per-query verdicts. -/
structure QueryAnalysis1 where
  queryIndex : Nat
  query : String
  results : List ResultAnalysis1

/-- Stage-1 per-person verdicts. -/
structure PersonAnalysis1 where
  personIndex : Nat
  queries : List QueryAnalysis1

/-- Stage-2 verdict on one fraud-site article (all fields required by the
schema). -/
structure FraudArticleAnalysis where
  articleIndex : Nat
  isRelevant : Bool
  extractedName : String
  nameMatch : Bool
  isFraudRelated : Bool
  reason : String

/-- Stage-2 verdict on one web-search result (`extractedName`, `nameMatch`,
`isFraudRelated` are optional in the schema). -/
structure WebResultAnalysis where
  resultIndex : Nat
  isRelevant : Bool
  reason : String
  extractedName : Option String
  nameMatch : Option Bool
  isFraudRelated : Option Bool

/-- Stage-2 per-query verdicts. -/
structure QueryAnalysis2 where
  queryIndex : Nat
  query : String
  results : List WebResultAnalysis

/-- Stage-2 per-person verdicts (`fraudSiteArticles` is optional in the
schema). -/
structure PersonAnalysis2 where
  personIndex : Nat
  fraudSiteArticles : Option (List FraudArticleAnalysis)
  queries : List QueryAnalysis2

/- ### Error fallbacks of the two classification calls -/

/-- Stage-1 `catch` fallback, per result list: every result gets
`needsFullCheck: true`. -/
def stage1FallbackResults (rs : List WebSearchResult) : List ResultAnalysis1 :=
  (List.range rs.length).map fun rIdx =>
    { resultIndex := rIdx, needsFullCheck := true,
      reason := "AI判定エラー（要手動確認）" }

/-- Stage-1 `catch` fallback, per query list: queries without displayable
results are dropped (they were never candidates), the rest get all-true
verdicts. -/
def stage1FallbackQueriesAux : Nat → List QueryData → List QueryAnalysis1
  | _, [] => []
  | qIdx, q :: rest =>
    if queryHasResults q then
      { queryIndex := qIdx, query := q.query,
        results := stage1FallbackResults (q.results.getD []) } ::
        stage1FallbackQueriesAux (qIdx + 1) rest
    else stage1FallbackQueriesAux (qIdx + 1) rest

/-- Stage-1 `catch` fallback, per query list, starting at index 0. -/
def stage1FallbackQueries (qs : List QueryData) : List QueryAnalysis1 :=
  stage1FallbackQueriesAux 0 qs

/-- Stage-1 `catch` fallback over all subjects. -/
def stage1ErrorFallbackAux : Nat → List PersonEgoData → List PersonAnalysis1
  | _, [] => []
  | pIdx, p :: rest =>
    { personIndex := pIdx,
      queries := stage1FallbackQueries p.negativeSearchResults } ::
      stage1ErrorFallbackAux (pIdx + 1) rest

/-- Stage-1 `catch` fallback of `analyzeStage1Snippets`. -/
def stage1ErrorFallback (data : List PersonEgoData) : List PersonAnalysis1 :=
  stage1ErrorFallbackAux 0 data

/-- Stage-2 `catch` fallback for the fraud-site articles of one subject:
every article of every qualifying site gets `isRelevant: true` (with
`nameMatch: false`, `isFraudRelated: true`). -/
def stage2FallbackFraudArticles (sites : List FraudSiteData) :
    List FraudArticleAnalysis :=
  (sites.filter fraudSiteHasArticles).flatMap fun fs =>
    (List.range (fs.articles.getD []).length).map fun aIdx =>
      { articleIndex := aIdx, isRelevant := true, extractedName := "AI判定エラー",
        nameMatch := false, isFraudRelated := true,
        reason := "AI判定エラー（要手動確認）" }

/-- Stage-2 `catch` fallback, per result list: every result gets
`isRelevant: true` and no optional fields. -/
def stage2FallbackResults (rs : List WebSearchResult) : List WebResultAnalysis :=
  (List.range rs.length).map fun rIdx =>
    { resultIndex := rIdx, isRelevant := true,
      reason := "AI判定エラー（要手動確認）",
      extractedName := none, nameMatch := none, isFraudRelated := none }

/-- Stage-2 `catch` fallback, per query list. -/
def stage2FallbackQueriesAux : Nat → List QueryData → List QueryAnalysis2
  | _, [] => []
  | qIdx, q :: rest =>
    if queryHasResults q then
      { queryIndex := qIdx, query := q.query,
        results := stage2FallbackResults (q.results.getD []) } ::
        stage2FallbackQueriesAux (qIdx + 1) rest
    else stage2FallbackQueriesAux (qIdx + 1) rest

/-- Stage-2 `catch` fallback, per query list, starting at index 0. -/
def stage2FallbackQueries (qs : List QueryData) : List QueryAnalysis2 :=
  stage2FallbackQueriesAux 0 qs

/-- Stage-2 `catch` fallback of `analyzeStage2FullContent` (ego-search part). -/
def stage2ErrorFallbackAux : Nat → List PersonEgoData → List PersonAnalysis2
  | _, [] => []
  | pIdx, p :: rest =>
    { personIndex := pIdx,
      fraudSiteArticles := some (stage2FallbackFraudArticles p.fraudSiteResults),
      queries := stage2FallbackQueries p.negativeSearchResults } ::
      stage2ErrorFallbackAux (pIdx + 1) rest

/-- Stage-2 `catch` fallback of `analyzeStage2FullContent`, starting at
person index 0. -/
def stage2ErrorFallback (data : List PersonEgoData) : List PersonAnalysis2 :=
  stage2ErrorFallbackAux 0 data

/- ### Final strict gates (`updateEgoSearchWithAnalysis`) -/

/-- The fraud-site gate: `!!articleAnalysis && articleAnalysis.isRelevant ===
true && articleAnalysis.nameMatch === true && articleAnalysis.isFraudRelated
=== true`. -/
def fraudStrictGate (aa : Option FraudArticleAnalysis) : Bool :=
  match aa with
  | none => false
  | some a => a.isRelevant && a.nameMatch && a.isFraudRelated

/-- The web-search gate: `!!resultAnalysis && resultAnalysis.isRelevant ===
true && (hasContent ? (resultAnalysis.nameMatch === true &&
resultAnalysis.isFraudRelated === true) : false)` where `hasContent =
!!searchResult.htmlContent || !!(resultAnalysis &&
resultAnalysis.extractedName)`. -/
def webStrictGate (r : WebSearchResult) (ra : Option WebResultAnalysis) : Bool :=
  match ra with
  | none => false
  | some a =>
    let hasContent := jsStrTruthy r.htmlContent || jsStrTruthy a.extractedName
    a.isRelevant &&
      (if hasContent then
        (a.nameMatch == some true && a.isFraudRelated == some true)
      else false)

/-- The fraud-site articles retained ("confirmed") by
`updateEgoSearchWithAnalysis`: article at index `idx` survives iff the verdict
found by `articleIndex === idx` passes the strict gate. -/
def fraudRelevantAux (anas : List FraudArticleAnalysis) :
    Nat → List FraudArticle → List FraudArticle
  | _, [] => []
  | idx, art :: rest =>
    if fraudStrictGate (anas.find? fun a => a.articleIndex == idx) then
      art :: fraudRelevantAux anas (idx + 1) rest
    else fraudRelevantAux anas (idx + 1) rest

/-- The retained fraud-site articles, from index 0; the analysis list is the
possibly-absent `fraudSiteArticles` field. -/
def fraudRelevantArticles (anas : Option (List FraudArticleAnalysis))
    (articles : List FraudArticle) : List FraudArticle :=
  fraudRelevantAux (anas.getD []) 0 articles

/-- The web-search results retained ("confirmed") by
`updateEgoSearchWithAnalysis` for one query. -/
def webRelevantAux (anas : List WebResultAnalysis) :
    Nat → List WebSearchResult → List WebSearchResult
  | _, [] => []
  | idx, r :: rest =>
    if webStrictGate r (anas.find? fun a => a.resultIndex == idx) then
      r :: webRelevantAux anas (idx + 1) rest
    else webRelevantAux anas (idx + 1) rest

/-- The retained web-search results of one query, from index 0. -/
def webRelevantResults (anas : List WebResultAnalysis)
    (rs : List WebSearchResult) : List WebSearchResult :=
  webRelevantAux anas 0 rs

/- ### Step-6 pipeline order (stage 1 → stage 1.5 fetch → stage 2) -/

/-- Observable events of the staged filter: a stage-1 triage verdict and a
stage-2 (stage-1.5) article fetch. -/
inductive Phase3Event where
  | stage1Triage (person query result : Nat) (needsFullCheck : Bool)
  | articleFetch (person query result : Nat)
deriving DecidableEq

/-- Whether an event is a stage-1 triage verdict. -/
def isTriageEvent : Phase3Event → Bool
  | .stage1Triage _ _ _ _ => true
  | .articleFetch _ _ _ => false

/-- Whether an event is an article fetch. -/
def isFetchEvent : Phase3Event → Bool
  | .stage1Triage _ _ _ _ => false
  | .articleFetch _ _ _ => true

/-- The triage events emitted by completing stage 1 for the results of one
query. -/
def stage1EventsForResults (p q : Nat) : List ResultAnalysis1 → List Phase3Event
  | [] => []
  | r :: rest =>
    .stage1Triage p q r.resultIndex r.needsFullCheck ::
      stage1EventsForResults p q rest

/-- The triage events emitted by completing stage 1 for one person. -/
def stage1EventsForQueries (p : Nat) : List QueryAnalysis1 → List Phase3Event
  | [] => []
  | q :: rest =>
    stage1EventsForResults p q.queryIndex q.results ++
      stage1EventsForQueries p rest

/-- All triage events of the completed stage-1 result. -/
def stage1Events : List PersonAnalysis1 → List Phase3Event
  | [] => []
  | p :: rest => stage1EventsForQueries p.personIndex p.queries ++ stage1Events rest

/-- The per-result fetch condition of `fetchRelevantArticleContents`:
`resultAnalysis && resultAnalysis.needsFullCheck` for the verdict found by
`resultIndex === rIdx`. -/
def fetchGate (qa : QueryAnalysis1) (rIdx : Nat) : Bool :=
  match qa.results.find? fun ra => ra.resultIndex == rIdx with
  | some ra => ra.needsFullCheck
  | none => false

/-- The fetch events of `fetchRelevantArticleContents` for the results of one
query: result `rIdx` is fetched iff `fetchGate` holds for it. -/
def fetchForResults (qa : QueryAnalysis1) (p q : Nat) :
    Nat → List WebSearchResult → List Phase3Event
  | _, [] => []
  | rIdx, _ :: rest =>
    (if fetchGate qa rIdx then [.articleFetch p q rIdx] else []) ++
      fetchForResults qa p q (rIdx + 1) rest

/-- The fetch events for the queries of one person: a query is skipped when its
stage-1 analysis is missing or its `results` field is absent. -/
def fetchForQueries (pa : PersonAnalysis1) (p : Nat) :
    Nat → List QueryData → List Phase3Event
  | _, [] => []
  | qIdx, q :: rest =>
    (match pa.queries.find? fun qa => qa.queryIndex == qIdx, q.results with
     | some qa, some rs => fetchForResults qa p qIdx 0 rs
     | _, _ => []) ++
      fetchForQueries pa p (qIdx + 1) rest

/-- The fetch events over all persons: a person is skipped when stage 1 has no
analysis for their index. -/
def fetchForPersons (s1 : List PersonAnalysis1) :
    Nat → List PersonEgoData → List Phase3Event
  | _, [] => []
  | pIdx, p :: rest =>
    (match s1.find? fun pa => pa.personIndex == pIdx with
     | some pa => fetchForQueries pa pIdx 0 p.negativeSearchResults
     | none => []) ++
      fetchForPersons s1 (pIdx + 1) rest

/-- All fetch events of stage 1.5. -/
def fetchEvents (data : List PersonEgoData) (s1 : List PersonAnalysis1) :
    List Phase3Event :=
  fetchForPersons s1 0 data

/-- The event trace of step 6: `await analyzeStage1Snippets(...)` completes
(emitting all triage verdicts) before `await fetchRelevantArticleContents(...)`
starts issuing fetches. -/
def phase3Stage6Trace (data : List PersonEgoData)
    (s1 : List PersonAnalysis1) : List Phase3Event :=
  stage1Events s1 ++ fetchEvents data s1

/- ## Document classification (`classifyAndExtractInfo`, purchase/collateral
   OCR tool) and ego-search negative queries (`egoSearchTool`) -/

/-- One OCR-processed document entering classification. -/
structure OcrDocument where
  fileName : String
  text : String

/-- The structured object returned by the classification LLM call
(`documentType` free-form, `extractedFacts` an open key-value record). -/
structure ClassificationLLM where
  documentType : String
  extractedFacts : List (String × String)

/-- `classifyAndExtractInfo`: on success the LLM object is returned; the
`catch` branch retains the document as `documentType: "分類不能"` with empty
facts. -/
def classifyAndExtractInfo (llm : Except Unit ClassificationLLM) :
    ClassificationLLM :=
  match llm with
  | .ok c => c
  | .error _ => { documentType := "分類不能", extractedFacts := [] }

/-- A document together with its classification outcome. -/
structure ClassifiedDocument where
  fileName : String
  text : String
  documentType : String
  extractedFacts : List (String × String)

/-- The per-document step of the classification batch (spread of the document
plus the two classification fields). -/
def classifyDocument (pr : OcrDocument × Except Unit ClassificationLLM) :
    ClassifiedDocument :=
  let c := classifyAndExtractInfo pr.2
  { fileName := pr.1.fileName, text := pr.1.text,
    documentType := c.documentType, extractedFacts := c.extractedFacts }

/-- The classification batch (`Promise.all(results.map(classify...))`): every
document is classified, each from its own call outcome. -/
def classifyDocuments
    (docs : List (OcrDocument × Except Unit ClassificationLLM)) :
    List ClassifiedDocument :=
  docs.map classifyDocument

/-- The four fixed negative-search queries of the ego-search tool. -/
def negativeQueries (name : String) : List String :=
  [name ++ " 詐欺", name ++ " 逮捕", name ++ " 容疑", name ++ " 被害"]

/-- One raw hit of the Google-search backend. -/
structure RawSearchResult where
  title : String
  link : String
  snippet : String

/-- The body of the per-query loop of the ego-search tool: a successful search
records `found` iff results are nonempty (mapping `link` to `url`); the `catch`
branch records the query with `found: false` and no results. -/
def runNegativeQuery (q : String) (oc : Except Unit (List RawSearchResult)) :
    QueryData :=
  match oc with
  | .error _ => { query := q, found := false, results := none }
  | .ok rs =>
    if rs.isEmpty then { query := q, found := false, results := none }
    else
      { query := q, found := true,
        results := some (rs.map fun r =>
          { title := r.title, url := r.link, snippet := r.snippet,
            htmlContent := none }) }

/-- The per-query loop: every query is executed, each with its own outcome. -/
def runNegativeSearches
    (qos : List (String × Except Unit (List RawSearchResult))) :
    List QueryData :=
  qos.map fun pr => runNegativeQuery pr.1 pr.2

/- ## Phase 4 report generation: `buildInputData` (field names romanized from
   the source's Japanese: documentKind=書類タイプ, matchResult=照合結果,
   detectedCount=検出人数, matchedCount=一致人数, negativeInfo=ネガティブ情報,
   fraudSiteCount=詐欺情報サイト, webSearchCount=Web検索, details=詳細,
   negativeUrlList=ネガティブURL一覧, companyName=企業名, officialSite=公式サイト,
   confidence=信頼度, total=総数, confirmedCount=確認済み,
   unconfirmedCount=未確認, companyList=企業リスト, applicantCompany=申込企業,
   purchaseCompanies=買取企業, collateralCompanies=担保企業,
   searchTargetCount=検索対象, riskDetectedCount=リスク検出,
   identityCheck=本人確認, applicantEgoSearch=申込者エゴサーチ,
   companyExistence=企業実在性, representativeRisk=代表者リスク) -/

/-- Phase-1 purchase verification result. -/
structure PurchaseVerificationIn where
  kintoneMatch : String

/-- Phase-1 collateral extraction result. -/
structure CollateralExtractionIn where
  findings : List String

/-- One gambling-risk detection. -/
structure GamblingDetection where
  date : String
  amount : Int
  destination : String
  keyword : String

/-- Phase-2 risk-detection block. -/
structure RiskDetectionIn where
  gambling : List GamblingDetection

/-- Phase-2 main-bank analysis block. -/
structure MainBankAnalysisIn where
  collateralMatches : List CollateralMatchOut
  riskDetection : RiskDetectionIn

/-- One transaction of the factoring debt-cycle analysis. -/
structure DebtTx where
  date : String
  amount : Int

/-- One unpaired inflow with its advisory note. -/
structure UnpairedInboundTx where
  date : String
  amount : Int
  note : String

/-- Per-counterparty debt-cycle record consumed by `formatPhase2Data`. -/
structure CompanyDebtAnalysis where
  companyName : String
  inboundTransactions : List DebtTx
  outboundTransactions : List DebtTx
  actualStatus : String
  unpairedInbound : List UnpairedInboundTx

/-- One portfolio alert of the factoring analysis. -/
structure FactoringAlert where
  type : String
  severity : String
  message : String
  details : String

/-- Summary counters of the factoring analysis. -/
structure FactoringSummary where
  totalCompanies : Nat
  activeContracts : Nat
  completedContracts : Nat
  hasSimultaneousContracts : Bool

/-- The factoring-analysis block consumed by `formatPhase2Data`. -/
structure FactoringAnalysisIn where
  allTransactions : List DebtTx
  companyAnalysis : List CompanyDebtAnalysis
  alerts : List FactoringAlert
  summary : FactoringSummary

/-- Phase-3 identity-verification block (本人確認). -/
structure IdentityCheckIn where
  documentKind : String
  matchResult : String
  detectedCount : Nat
  matchedCount : Nat

/-- Phase-3 applicant ego-search block (申込者エゴサーチ). -/
structure ApplicantEgoSearchIn where
  negativeInfo : Bool
  fraudSiteCount : Nat
  webSearchCount : Nat
  details : String
  negativeUrlList : Option (List String)

/-- One company entry of the company-existence block. -/
structure CompanyEntryIn where
  companyName : String
  officialSite : Option String
  confidence : Nat

/-- One company group of the company-existence block. -/
structure CompanyGroupIn where
  total : Nat
  confirmedCount : Nat
  unconfirmedCount : Nat
  companyList : List String

/-- Phase-3 company-existence block (企業実在性). -/
structure CompanyExistenceIn where
  applicantCompany : CompanyEntryIn
  purchaseCompanies : CompanyGroupIn
  collateralCompanies : CompanyGroupIn

/-- Phase-3 representative-risk block (代表者リスク). -/
structure RepresentativeRiskIn where
  searchTargetCount : Nat
  riskDetectedCount : Nat

/-- A phase-1 result; each block may be absent (`undefined`/`null`). -/
structure Phase1Results where
  purchaseDocuments : Option (List ClassifiedDocument)
  collateralDocuments : Option (List ClassifiedDocument)
  purchaseVerification : Option PurchaseVerificationIn
  collateralExtraction : Option CollateralExtractionIn

/-- A phase-2 result; each block may be absent. -/
structure Phase2Results where
  mainBankAnalysis : Option MainBankAnalysisIn
  factoringAnalysis : Option FactoringAnalysisIn

/-- A phase-3 result; each block may be absent. -/
structure Phase3Results where
  identityCheck : Option IdentityCheckIn
  applicantEgoSearch : Option ApplicantEgoSearchIn
  companyExistence : Option CompanyExistenceIn
  representativeRisk : Option RepresentativeRiskIn

/-- The complete phase-1 slice of the report input. -/
structure Phase1Input where
  purchaseDocuments : List ClassifiedDocument
  collateralDocuments : List ClassifiedDocument
  purchaseVerification : PurchaseVerificationIn
  collateralExtraction : CollateralExtractionIn

/-- The complete phase-2 slice of the report input. -/
structure Phase2Input where
  mainBankAnalysis : MainBankAnalysisIn
  factoringAnalysis : FactoringAnalysisIn

/-- The complete phase-3 slice of the report input. -/
structure Phase3Input where
  identityCheck : IdentityCheckIn
  applicantEgoSearch : ApplicantEgoSearchIn
  companyExistence : CompanyExistenceIn
  representativeRisk : RepresentativeRiskIn

/-- Opaque Kintone record data, passed through unchanged. -/
structure KintoneData where
  fields : List (String × String)

/-- The full typed report input handed to the renderer prompt. -/
structure InputDataForAI where
  recordId : String
  phase1 : Phase1Input
  phase2 : Phase2Input
  phase3 : Phase3Input
  kintone : KintoneData

/-- Default `{ kintoneMatch: "不一致" }`. -/
def defaultPurchaseVerification : PurchaseVerificationIn :=
  { kintoneMatch := "不一致" }

/-- Default `{ findings: [] }`. -/
def defaultCollateralExtraction : CollateralExtractionIn :=
  { findings := [] }

/-- Default empty main-bank analysis. -/
def defaultMainBankAnalysis : MainBankAnalysisIn :=
  { collateralMatches := [], riskDetection := { gambling := [] } }

/-- Default empty factoring analysis with zero counters. -/
def defaultFactoringAnalysis : FactoringAnalysisIn :=
  { allTransactions := [], companyAnalysis := [], alerts := [],
    summary := { totalCompanies := 0, activeContracts := 0,
                 completedContracts := 0, hasSimultaneousContracts := false } }

/-- Default 本人確認 with the explicit "なし"/"未実施" markers. -/
def defaultIdentityCheck : IdentityCheckIn :=
  { documentKind := "なし", matchResult := "未実施", detectedCount := 0,
    matchedCount := 0 }

/-- Default 申込者エゴサーチ with the explicit "Phase 3未実行" marker. -/
def defaultApplicantEgoSearch : ApplicantEgoSearchIn :=
  { negativeInfo := false, fraudSiteCount := 0, webSearchCount := 0,
    details := "Phase 3未実行", negativeUrlList := none }

/-- Default empty 企業実在性. -/
def defaultCompanyExistence : CompanyExistenceIn :=
  { applicantCompany := { companyName := "", officialSite := none,
                          confidence := 0 },
    purchaseCompanies := { total := 0, confirmedCount := 0,
                           unconfirmedCount := 0, companyList := [] },
    collateralCompanies := { total := 0, confirmedCount := 0,
                             unconfirmedCount := 0, companyList := [] } }

/-- Default zero 代表者リスク. -/
def defaultRepresentativeRisk : RepresentativeRiskIn :=
  { searchTargetCount := 0, riskDetectedCount := 0 }

/-- `buildInputData`: each block is `phaseResults?.field || default`; the
function is total, so the run cannot fail because a phase result is absent. -/
def buildInputData (recordId : String) (phase1Results : Option Phase1Results)
    (phase2Results : Option Phase2Results)
    (phase3Results : Option Phase3Results)
    (kintoneData : KintoneData) : InputDataForAI :=
  { recordId := recordId
    phase1 := {
      purchaseDocuments := (phase1Results.bind (·.purchaseDocuments)).getD []
      collateralDocuments :=
        (phase1Results.bind (·.collateralDocuments)).getD []
      purchaseVerification :=
        (phase1Results.bind (·.purchaseVerification)).getD
          defaultPurchaseVerification
      collateralExtraction :=
        (phase1Results.bind (·.collateralExtraction)).getD
          defaultCollateralExtraction }
    phase2 := {
      mainBankAnalysis :=
        (phase2Results.bind (·.mainBankAnalysis)).getD defaultMainBankAnalysis
      factoringAnalysis :=
        (phase2Results.bind (·.factoringAnalysis)).getD
          defaultFactoringAnalysis }
    phase3 := {
      identityCheck :=
        (phase3Results.bind (·.identityCheck)).getD defaultIdentityCheck
      applicantEgoSearch :=
        (phase3Results.bind (·.applicantEgoSearch)).getD
          defaultApplicantEgoSearch
      companyExistence :=
        (phase3Results.bind (·.companyExistence)).getD defaultCompanyExistence
      representativeRisk :=
        (phase3Results.bind (·.representativeRisk)).getD
          defaultRepresentativeRisk }
    kintone := kintoneData }

/- ## Counterparty debt-cycle pairing (spec §4.3).  The pairing implementation
   is not under src/: the phase-4 step only consumes its output
   (`factoringAnalysis.companyAnalysis` with `inboundTransactions`,
   `outboundTransactions`, `unpairedInbound`, `actualStatus` in
   `formatPhase2Data`), so the algorithm itself is modelled from the spec. -/

/-- Modelled from the spec: one dated money flow (inflow or outflow magnitude)
of a known third-party financier; the debt-cycle analyzer implementation is
missing from src/ (only `formatPhase2Data` consumes its output). -/
structure DebtFlow where
  date : Nat
  amount : Nat
deriving DecidableEq

/-- Modelled from the spec: "an inflow can pair with a later outflow if the
outflow amount is 90%–115% of the inflow amount … and the outflow date
strictly follows the inflow date". -/
def pairEligible (inflow outflow : DebtFlow) : Bool :=
  decide (inflow.date < outflow.date) &&
  decide (90 * inflow.amount ≤ 100 * outflow.amount) &&
  decide (100 * outflow.amount ≤ 115 * inflow.amount)

/-- Modelled from the spec: pick the earliest (first, in chronological order)
eligible outflow for an inflow, returning it and the remaining outflows. -/
def pickOutflow (inflow : DebtFlow) :
    List DebtFlow → Option (DebtFlow × List DebtFlow)
  | [] => none
  | o :: os =>
    if pairEligible inflow o then some (o, os)
    else
      match pickOutflow inflow os with
      | none => none
      | some (o2, rest) => some (o2, o :: rest)

/-- Modelled from the spec: "pairing is greedy in chronological order (earliest
unpaired inflow pairs with earliest eligible later outflow)" — inflows are
processed in chronological order, each consuming its earliest eligible
outflow; the second component collects the unpaired inflows. -/
def greedyPairCycles :
    List DebtFlow → List DebtFlow → List (DebtFlow × DebtFlow) × List DebtFlow
  | [], _ => ([], [])
  | i :: is, outs =>
    match pickOutflow i outs with
    | some (o, rest) =>
      ((i, o) :: (greedyPairCycles is rest).1, (greedyPairCycles is rest).2)
    | none =>
      ((greedyPairCycles is outs).1, i :: (greedyPairCycles is outs).2)

/- ### Sample data for concrete instantiations -/

/-- A sample OCR document. -/
def sampleDoc1 : OcrDocument :=
  { fileName := "請求書.pdf", text := "請求書 株式会社〇〇 1,000,000円" }

/-- A second sample OCR document. -/
def sampleDoc2 : OcrDocument :=
  { fileName := "謄本.pdf", text := "登記情報 株式会社△△" }

/-- A sample successful classification. -/
def sampleClassification : ClassificationLLM :=
  { documentType := "請求書",
    extractedFacts := [("請求元", "株式会社〇〇"), ("請求額", "1,000,000")] }

/-- A stage-2 fraud-article verdict with all strict flags true. -/
def passingFraudVerdict : FraudArticleAnalysis :=
  { articleIndex := 0, isRelevant := true, extractedName := "山田太郎",
    nameMatch := true, isFraudRelated := true, reason := "本人一致・犯罪記事" }

/-- A stage-2 web-result verdict with all strict flags true. -/
def passingWebVerdict : WebResultAnalysis :=
  { resultIndex := 0, isRelevant := true, reason := "容疑者として一致",
    extractedName := some "山田太郎", nameMatch := some true,
    isFraudRelated := some true }

/-- A web-search result with fetched article body. -/
def sampleSearchResult : WebSearchResult :=
  { title := "詐欺事件の記事", url := "https://example.com/a",
    snippet := "詐欺の疑いで逮捕", htmlContent := some "<html>本文</html>" }

/-- A negative-search query with one result. -/
def sampleQueryData : QueryData :=
  { query := "山田太郎 詐欺", found := true,
    results := some [sampleSearchResult] }

/-- A fetched fraud-site article. -/
def sampleFraudArticle : FraudArticle :=
  { title := "注意喚起記事", url := "https://fraud.example.com/1",
    htmlContent := "<html>記事本文</html>" }

/-- A fraud-site check that found one article. -/
def sampleFraudSiteData : FraudSiteData :=
  { siteName := "詐欺情報サイト", found := true,
    articles := some [sampleFraudArticle] }

/-- An ego-search result with one fraud-site hit and one query hit. -/
def samplePersonEgoData : PersonEgoData :=
  { fraudSiteResults := [sampleFraudSiteData],
    negativeSearchResults := [sampleQueryData] }

/-- The stage-2 fallback person analysis of `samplePersonEgoData`. -/
def sampleStage2FallbackPerson : PersonAnalysis2 :=
  { personIndex := 0,
    fraudSiteArticles :=
      some (stage2FallbackFraudArticles samplePersonEgoData.fraudSiteResults),
    queries := stage2FallbackQueries samplePersonEgoData.negativeSearchResults }

/-- The stage-2 fallback query analysis of `sampleQueryData`. -/
def sampleStage2FallbackQuery : QueryAnalysis2 :=
  { queryIndex := 0, query := "山田太郎 詐欺",
    results := stage2FallbackResults [sampleSearchResult] }

/-- A stage-1 result analysis flagging result 0 for full check. -/
def sampleResultAnalysis1 : ResultAnalysis1 :=
  { resultIndex := 0, needsFullCheck := true, reason := "犯罪関連の疑い" }

/-- The stage-1 fallback verdict for result 0. -/
def sampleFallbackResult1 : ResultAnalysis1 :=
  { resultIndex := 0, needsFullCheck := true,
    reason := "AI判定エラー（要手動確認）" }

/-- The stage-1 fallback person analysis of `samplePersonEgoData`. -/
def sampleStage1FallbackPerson : PersonAnalysis1 :=
  { personIndex := 0,
    queries := stage1FallbackQueries samplePersonEgoData.negativeSearchResults }

/-- The stage-1 fallback query analysis of `sampleQueryData`. -/
def sampleStage1FallbackQuery : QueryAnalysis1 :=
  { queryIndex := 0, query := "山田太郎 詐欺",
    results := stage1FallbackResults [sampleSearchResult] }

/-- The stage-2 fallback fraud-article verdict for article 0. -/
def sampleFallbackFraudVerdict : FraudArticleAnalysis :=
  { articleIndex := 0, isRelevant := true, extractedName := "AI判定エラー",
    nameMatch := false, isFraudRelated := true,
    reason := "AI判定エラー（要手動確認）" }

/-- A stage-1 query analysis for query 0. -/
def sampleQueryAnalysis1 : QueryAnalysis1 :=
  { queryIndex := 0, query := "山田太郎 詐欺",
    results := [sampleResultAnalysis1] }

/-- A stage-1 person analysis for person 0. -/
def samplePersonAnalysis1 : PersonAnalysis1 :=
  { personIndex := 0, queries := [sampleQueryAnalysis1] }

/- ## Theorems: C8, C9, C10 -/

/-- C8: for every URL, `fetchArticleContent` returns the response body when the
HTTP status is 200, returns `null` for every non-200 response and for every
request error, and never throws to the caller. -/
theorem fetchArticleContent_spec (o : NetOutcome) :
    (∃ v, fetchArticleContent o = .ok v) ∧
    (∀ r, o = .response r → r.status = 200 →
      fetchArticleContent o = .ok (some r.body)) ∧
    (∀ r, o = .response r → r.status ≠ 200 →
      fetchArticleContent o = .ok none) ∧
    (o = .netError → fetchArticleContent o = .ok none) := by
  refine ⟨?_, ?_, ?_, ?_⟩
  · cases o with
    | response r =>
      by_cases h5 : r.status < 500 <;>
        simp [fetchArticleContent, fetchArticleTry, axiosGetLt500, h5]
    | netError =>
      exact ⟨none, rfl⟩
  · rintro r rfl h200
    simp [fetchArticleContent, fetchArticleTry, axiosGetLt500, h200]
  · rintro r rfl hne
    by_cases h5 : r.status < 500 <;>
      simp [fetchArticleContent, fetchArticleTry, axiosGetLt500, h5, hne]
  · rintro rfl
    rfl

/-- Witness for C8 at concrete outcomes: a 200 response yields its body, a
network error yields `null`. -/
theorem fetchArticleContent_spec_witness :
    fetchArticleContent (.response ⟨200, "hello"⟩) = .ok (some "hello") ∧
    fetchArticleContent .netError = .ok none := by
  exact ⟨(fetchArticleContent_spec (.response ⟨200, "hello"⟩)).2.1 ⟨200, "hello"⟩
      rfl rfl,
    (fetchArticleContent_spec .netError).2.2.2 rfl⟩

/-- C9: for every input, the `crossBankTransfers` field of the phase-2 step
output is the empty list — cross-bank fund-transfer detection is never
performed, even when both bank statements are present. -/
theorem crossBankTransfers_always_empty
    (collateralCompanyNames : List String)
    (mainDetected subDetected : Option (List FactoringDetection)) :
    (phase2Integration collateralCompanyNames mainDetected
      subDetected).crossBankTransfers = [] := by
  cases mainDetected <;> cases subDetected <;> rfl

/-- C10: an output entry appears in the returned `factoringCompanies` list iff
it is the projection of a detected transaction (from main and sub analyses
combined) whose company name shares no substring relation (in either direction)
with any collateral company name and which contains none of the fixed excluded
strings in its company name or payer/payee string. -/
theorem factoringCompanies_filter_exact
    (collateralCompanyNames : List String)
    (mainDetected subDetected : Option (List FactoringDetection))
    (g : FactoringCompanyOut) :
    g ∈ (phase2Integration collateralCompanyNames mainDetected
        subDetected).factoringCompanies ↔
      ∃ f, f ∈ mainDetected.getD [] ++ subDetected.getD [] ∧
        (¬ ∃ name ∈ collateralCompanyNames,
          SubstrOf name f.companyName ∨ SubstrOf f.companyName name) ∧
        (¬ ∃ ex ∈ excludedCompanies,
          SubstrOf ex f.companyName ∨ SubstrOf ex f.payerOrPayee) ∧
        projectFactoring f = g := by
  have hkeep : ∀ f : FactoringDetection,
      (!(isCollateralDetected collateralCompanyNames f) &&
        !(isExcludedDetected f)) = true ↔
      (¬ ∃ name ∈ collateralCompanyNames,
        SubstrOf name f.companyName ∨ SubstrOf f.companyName name) ∧
      (¬ ∃ ex ∈ excludedCompanies,
        SubstrOf ex f.companyName ∨ SubstrOf ex f.payerOrPayee) := by
    intro f
    simp only [Bool.and_eq_true, Bool.not_eq_true', isCollateralDetected,
      isExcludedDetected, List.any_eq_false, SubstrOf]
    constructor
    · rintro ⟨hc, he⟩
      refine ⟨?_, ?_⟩
      · rintro ⟨name, hmem, hor⟩
        have := hc name hmem
        rcases hor with h | h <;> simp [h] at this
      · rintro ⟨ex, hmem, hor⟩
        have := he ex hmem
        rcases hor with h | h <;> simp [h] at this
    · rintro ⟨hc, he⟩
      constructor
      · intro name hmem
        by_contra hne
        rcases Bool.or_eq_true_iff.mp hne with h' | h'
        · exact hc ⟨name, hmem, Or.inl h'⟩
        · exact hc ⟨name, hmem, Or.inr h'⟩
      · intro ex hmem
        by_contra hne
        rcases Bool.or_eq_true_iff.mp hne with h' | h'
        · exact he ⟨ex, hmem, Or.inl h'⟩
        · exact he ⟨ex, hmem, Or.inr h'⟩
  constructor
  · intro hg
    simp only [phase2Integration, integrateFactoringCompanies,
      filterFactoringDetected, List.map_append, List.mem_append,
      List.mem_map] at hg
    have : ∃ f, (f ∈ (match mainDetected with
          | some l => l.filter fun f =>
              !(isCollateralDetected collateralCompanyNames f) &&
                !(isExcludedDetected f)
          | none => []) ∨
        f ∈ (match subDetected with
          | some l => l.filter fun f =>
              !(isCollateralDetected collateralCompanyNames f) &&
                !(isExcludedDetected f)
          | none => [])) ∧ projectFactoring f = g := by
      rcases hg with ⟨f, hf, hfg⟩ | ⟨f, hf, hfg⟩
      · exact ⟨f, Or.inl hf, hfg⟩
      · exact ⟨f, Or.inr hf, hfg⟩
    rcases this with ⟨f, hf, hfg⟩
    have hsrc : f ∈ mainDetected.getD [] ++ subDetected.getD [] ∧
        (!(isCollateralDetected collateralCompanyNames f) &&
          !(isExcludedDetected f)) = true := by
      rcases hf with hf | hf
      · cases mainDetected with
        | none => simp at hf
        | some l =>
          rcases List.mem_filter.mp hf with ⟨hmem, hcond⟩
          exact ⟨List.mem_append.mpr (Or.inl hmem), hcond⟩
      · cases subDetected with
        | none => simp at hf
        | some l =>
          rcases List.mem_filter.mp hf with ⟨hmem, hcond⟩
          exact ⟨List.mem_append.mpr (Or.inr hmem), hcond⟩
    rcases (hkeep f).mp hsrc.2 with ⟨hc, he⟩
    exact ⟨f, hsrc.1, hc, he, hfg⟩
  · rintro ⟨f, hmem, hc, he, hfg⟩
    have hcond := (hkeep f).mpr ⟨hc, he⟩
    simp only [phase2Integration, integrateFactoringCompanies,
      filterFactoringDetected, List.map_append, List.mem_append,
      List.mem_map]
    rcases List.mem_append.mp hmem with hf | hf
    · left
      refine ⟨f, ?_, hfg⟩
      cases mainDetected with
      | none => simp at hf
      | some l => exact List.mem_filter.mpr ⟨hf, hcond⟩
    · right
      refine ⟨f, ?_, hfg⟩
      cases subDetected with
      | none => simp at hf
      | some l => exact List.mem_filter.mpr ⟨hf, hcond⟩

/-- C1 counterexample: the step does not enforce the ±1,000 tolerance.  The
tolerance is stated only inside the LLM prompt; the step output reproduces the
model's `matched` flag and `matchedTransactions` verbatim, so a schema-valid
analysis marking a period matched with a sum 999,999 away from the expected
amount yields a step output violating the claimed invariant. -/
theorem phase2_tolerance_not_enforced : ¬ phase2ToleranceInvariant := by
  intro h
  have hfin := h outOfToleranceAnalysis
    (mapCollateralMatch { company := "株式会社サンプル工務店",
                          allTransactions := [],
                          expectedValues := [("2025-08", 1000000)],
                          monthlyAnalysis := [outOfToleranceEntry] })
    (List.mem_singleton.mpr rfl)
    (mapMonthlyResult outOfToleranceEntry) (List.mem_singleton.mpr rfl) rfl
  exact absurd hfin (by decide)

/-- C1 amended: the tolerance invariant is a pass-through property — the step
copies each period's `matched`, `matchedTransactions` and expected amount
unchanged from the AI analysis, so whenever every period of the analysis obeys
the ±1,000 tolerance, every period of the step output does too (and only
then; the code itself performs no tolerance check). -/
theorem phase2_tolerance_passthrough (ms : List CollateralMatchIn)
    (h : ∀ m ∈ ms, ∀ ma ∈ m.monthlyAnalysis, ma.matched = true →
      (txSum ma.matchedTransactions - ma.expectedAmount).natAbs ≤ 1000) :
    ∀ c ∈ phase2CollateralOutput ms, ∀ mr ∈ c.monthlyResults,
      mr.matched = true →
        (txSum mr.matchedTransactions - mr.expected).natAbs ≤ 1000 := by
  intro c hc mr hmr hm
  rcases List.mem_map.mp hc with ⟨m, hmem, rfl⟩
  rcases List.mem_map.mp hmr with ⟨ma, hma, rfl⟩
  exact h m hmem ma hma hm

/-- Witness for the amended C1 at a concrete in-tolerance analysis. -/
theorem phase2_tolerance_passthrough_witness :
    (txSum (mapMonthlyResult inToleranceEntry).matchedTransactions -
      (mapMonthlyResult inToleranceEntry).expected).natAbs ≤ 1000 :=
  phase2_tolerance_passthrough [inToleranceMatch] (by decide)
    (mapCollateralMatch inToleranceMatch) (List.mem_singleton.mpr rfl)
    (mapMonthlyResult inToleranceEntry) (List.mem_singleton.mpr rfl) rfl

/- ## Helper lemmas: adverse-media fallbacks and gates -/

/-- Every stage-1 fallback verdict flags the result for full check. -/
theorem stage1FallbackResults_needsFullCheck (rs : List WebSearchResult)
    (ra : ResultAnalysis1) (h : ra ∈ stage1FallbackResults rs) :
    ra.needsFullCheck = true := by
  rcases List.mem_map.mp h with ⟨i, _, rfl⟩
  rfl

/-- Every query analysis in the stage-1 fallback carries fallback results. -/
theorem stage1FallbackQueriesAux_results (i : Nat) (qs : List QueryData)
    (qa : QueryAnalysis1) (h : qa ∈ stage1FallbackQueriesAux i qs) :
    ∃ rs0, qa.results = stage1FallbackResults rs0 := by
  induction qs generalizing i with
  | nil => simp [stage1FallbackQueriesAux] at h
  | cons q rest ih =>
    simp only [stage1FallbackQueriesAux] at h
    by_cases hq : queryHasResults q = true
    · rw [if_pos hq] at h
      rcases List.mem_cons.mp h with rfl | h
      · exact ⟨q.results.getD [], rfl⟩
      · exact ih (i + 1) h
    · rw [if_neg hq] at h
      exact ih (i + 1) h

/-- Every person analysis in the stage-1 fallback carries fallback queries for
some person of the input. -/
theorem stage1ErrorFallbackAux_queries (i : Nat) (data : List PersonEgoData)
    (pa : PersonAnalysis1) (h : pa ∈ stage1ErrorFallbackAux i data) :
    ∃ p ∈ data, pa.queries = stage1FallbackQueries p.negativeSearchResults := by
  induction data generalizing i with
  | nil => simp [stage1ErrorFallbackAux] at h
  | cons p rest ih =>
    simp only [stage1ErrorFallbackAux] at h
    rcases List.mem_cons.mp h with rfl | h
    · exact ⟨p, List.mem_cons_self .., rfl⟩
    · rcases ih (i + 1) h with ⟨p0, hp0, hq⟩
      exact ⟨p0, List.mem_cons_of_mem _ hp0, hq⟩

/-- Every stage-2 fallback web verdict is relevant and has no name-match
field. -/
theorem stage2FallbackResults_fields (rs : List WebSearchResult)
    (ra : WebResultAnalysis) (h : ra ∈ stage2FallbackResults rs) :
    ra.isRelevant = true ∧ ra.nameMatch = none := by
  rcases List.mem_map.mp h with ⟨i, _, rfl⟩
  exact ⟨rfl, rfl⟩

/-- Every query analysis in the stage-2 fallback carries fallback results. -/
theorem stage2FallbackQueriesAux_results (i : Nat) (qs : List QueryData)
    (qa : QueryAnalysis2) (h : qa ∈ stage2FallbackQueriesAux i qs) :
    ∃ rs0, qa.results = stage2FallbackResults rs0 := by
  induction qs generalizing i with
  | nil => simp [stage2FallbackQueriesAux] at h
  | cons q rest ih =>
    simp only [stage2FallbackQueriesAux] at h
    by_cases hq : queryHasResults q = true
    · rw [if_pos hq] at h
      rcases List.mem_cons.mp h with rfl | h
      · exact ⟨q.results.getD [], rfl⟩
      · exact ih (i + 1) h
    · rw [if_neg hq] at h
      exact ih (i + 1) h

/-- Every stage-2 fallback fraud-article verdict is relevant but name-match
false. -/
theorem stage2FallbackFraudArticles_fields (sites : List FraudSiteData)
    (fa : FraudArticleAnalysis) (h : fa ∈ stage2FallbackFraudArticles sites) :
    fa.isRelevant = true ∧ fa.nameMatch = false := by
  rcases List.mem_flatMap.mp h with ⟨fs, _, hmem⟩
  rcases List.mem_map.mp hmem with ⟨i, _, rfl⟩
  exact ⟨rfl, rfl⟩

/-- Every person analysis in the stage-2 fallback carries the fallback fraud
and query verdicts of some person of the input. -/
theorem stage2ErrorFallbackAux_fields (i : Nat) (data : List PersonEgoData)
    (pa : PersonAnalysis2) (h : pa ∈ stage2ErrorFallbackAux i data) :
    ∃ p ∈ data,
      pa.fraudSiteArticles = some (stage2FallbackFraudArticles p.fraudSiteResults) ∧
      pa.queries = stage2FallbackQueries p.negativeSearchResults := by
  induction data generalizing i with
  | nil => simp [stage2ErrorFallbackAux] at h
  | cons p rest ih =>
    simp only [stage2ErrorFallbackAux] at h
    rcases List.mem_cons.mp h with rfl | h
    · exact ⟨p, List.mem_cons_self .., rfl, rfl⟩
    · rcases ih (i + 1) h with ⟨p0, hp0, hq⟩
      exact ⟨p0, List.mem_cons_of_mem _ hp0, hq⟩

/-- A fraud gate over an analysis list whose members all fail name-match is
closed at every index. -/
theorem fraudStrictGate_false_of_noNameMatch (anas : List FraudArticleAnalysis)
    (hall : ∀ a ∈ anas, a.nameMatch = false) (idx : Nat) :
    fraudStrictGate (anas.find? fun a => a.articleIndex == idx) = false := by
  cases hf : anas.find? fun a => a.articleIndex == idx with
  | none => rfl
  | some a =>
    have ha := hall a (List.mem_of_find?_eq_some hf)
    simp [fraudStrictGate, ha]

/-- A web gate over a verdict without a name-match field is closed. -/
theorem webStrictGate_false_of_noNameMatch (r : WebSearchResult)
    (a : WebResultAnalysis) (h : a.nameMatch = none) :
    webStrictGate r (some a) = false := by
  simp only [webStrictGate, h]
  by_cases hc : (jsStrTruthy r.htmlContent || jsStrTruthy a.extractedName) = true <;>
    simp [hc]

/-- If the gate is closed at every index, no fraud article is retained. -/
theorem fraudRelevantAux_nil (anas : List FraudArticleAnalysis)
    (hall : ∀ idx, fraudStrictGate (anas.find? fun a => a.articleIndex == idx) = false)
    (i : Nat) (arts : List FraudArticle) :
    fraudRelevantAux anas i arts = [] := by
  induction arts generalizing i with
  | nil => rfl
  | cons art rest ih =>
    simp only [fraudRelevantAux, hall i, if_false]
    exact ih (i + 1)

/-- If the gate is closed at every result, no web result is retained. -/
theorem webRelevantAux_nil (anas : List WebResultAnalysis)
    (hall : ∀ r idx, webStrictGate r (anas.find? fun a => a.resultIndex == idx) = false)
    (i : Nat) (rs : List WebSearchResult) :
    webRelevantAux anas i rs = [] := by
  induction rs generalizing i with
  | nil => rfl
  | cons r rest ih =>
    simp only [webRelevantAux, hall r i, if_false]
    exact ih (i + 1)

/-- C2: a candidate (fraud-site article or web-search result) is resolved to
confirmed by the final strict gate of `updateEgoSearchWithAnalysis` only if its
verdict exists and has `nameMatch` and `isFraudRelated` strictly `true`
(missing or ambiguous fields reject), and on the stage-2 classification-error
path (whose fallback marks everything `isRelevant: true`) no fraud-site
article and no web-search result passes the gate. -/
theorem stage2_confirmed_requires_strict_flags :
    (∀ aa, fraudStrictGate aa = true →
      ∃ a, aa = some a ∧ a.nameMatch = true ∧ a.isFraudRelated = true ∧
        a.isRelevant = true) ∧
    (∀ r ra, webStrictGate r ra = true →
      ∃ a, ra = some a ∧ a.nameMatch = some true ∧
        a.isFraudRelated = some true ∧ a.isRelevant = true) ∧
    (∀ sites arts,
      fraudRelevantArticles (some (stage2FallbackFraudArticles sites)) arts
        = []) ∧
    (∀ data pa, pa ∈ stage2ErrorFallback data → ∀ qa ∈ pa.queries,
      ∀ rs, webRelevantResults qa.results rs = []) := by
  refine ⟨?_, ?_, ?_, ?_⟩
  · intro aa h
    cases aa with
    | none => exact absurd h (by simp [fraudStrictGate])
    | some a =>
      simp only [fraudStrictGate, Bool.and_eq_true] at h
      exact ⟨a, rfl, h.1.2, h.2, h.1.1⟩
  · intro r ra h
    cases ra with
    | none => exact absurd h (by simp [webStrictGate])
    | some a =>
      simp only [webStrictGate, Bool.and_eq_true] at h
      rcases h with ⟨hrel, hif⟩
      by_cases hc : (jsStrTruthy r.htmlContent || jsStrTruthy a.extractedName) = true
      · rw [if_pos hc] at hif
        simp only [Bool.and_eq_true, beq_iff_eq] at hif
        exact ⟨a, rfl, hif.1, hif.2, hrel⟩
      · rw [if_neg hc] at hif
        exact absurd hif (by simp)
  · intro sites arts
    exact fraudRelevantAux_nil _
      (fraudStrictGate_false_of_noNameMatch _
        (fun a ha => (stage2FallbackFraudArticles_fields sites a ha).2)) 0 arts
  · intro data pa hpa qa hqa rs
    rcases stage2ErrorFallbackAux_fields 0 data pa hpa with ⟨p, _, _, hqs⟩
    rw [hqs] at hqa
    rcases stage2FallbackQueriesAux_results 0 _ qa hqa with ⟨rs0, hres⟩
    rw [webRelevantResults, hres]
    refine webRelevantAux_nil _ ?_ 0 rs
    intro r idx
    cases hf : (stage2FallbackResults rs0).find? fun a => a.resultIndex == idx with
    | none => rfl
    | some a =>
      exact webStrictGate_false_of_noNameMatch r a
        (stage2FallbackResults_fields rs0 a (List.mem_of_find?_eq_some hf)).2

/-- Witness for C2: the gates accept a fully-strict verdict and, on the
error-fallback path built from concrete ego-search data, no candidate is
confirmed. -/
theorem stage2_confirmed_requires_strict_flags_witness :
    (∃ a, some passingFraudVerdict = some a ∧ a.nameMatch = true ∧
      a.isFraudRelated = true ∧ a.isRelevant = true) ∧
    (∃ a, some passingWebVerdict = some a ∧ a.nameMatch = some true ∧
      a.isFraudRelated = some true ∧ a.isRelevant = true) ∧
    fraudRelevantArticles
      (some (stage2FallbackFraudArticles samplePersonEgoData.fraudSiteResults))
      [sampleFraudArticle] = [] ∧
    webRelevantResults sampleStage2FallbackQuery.results [sampleSearchResult]
      = [] := by
  refine ⟨?_, ?_, ?_, ?_⟩
  · exact stage2_confirmed_requires_strict_flags.1 (some passingFraudVerdict) rfl
  · exact stage2_confirmed_requires_strict_flags.2.1 sampleSearchResult
      (some passingWebVerdict) rfl
  · exact stage2_confirmed_requires_strict_flags.2.2.1
      samplePersonEgoData.fraudSiteResults [sampleFraudArticle]
  · exact stage2_confirmed_requires_strict_flags.2.2.2 [samplePersonEgoData]
      sampleStage2FallbackPerson (List.mem_singleton.mpr rfl)
      sampleStage2FallbackQuery (List.mem_singleton.mpr rfl) [sampleSearchResult]

/-- Stage-1 fallback covers every result index of a query. -/
theorem stage1FallbackResults_coverage (rs : List WebSearchResult) (rIdx : Nat)
    (h : rIdx < rs.length) :
    ∃ ra ∈ stage1FallbackResults rs, ra.resultIndex = rIdx ∧
      ra.needsFullCheck = true := by
  refine ⟨{ resultIndex := rIdx, needsFullCheck := true,
            reason := "AI判定エラー（要手動確認）" }, ?_, rfl, rfl⟩
  exact List.mem_map.mpr ⟨rIdx, List.mem_range.mpr h, rfl⟩

/-- Stage-1 fallback covers every query that had displayable results. -/
theorem stage1FallbackQueriesAux_coverage (qs : List QueryData) (i qIdx : Nat)
    (q : QueryData) (hget : qs.get? qIdx = some q)
    (hq : queryHasResults q = true) :
    ∃ qa ∈ stage1FallbackQueriesAux i qs, qa.queryIndex = i + qIdx ∧
      qa.results = stage1FallbackResults (q.results.getD []) := by
  induction qs generalizing i qIdx with
  | nil => simp at hget
  | cons q0 rest ih =>
    cases qIdx with
    | zero =>
      simp only [List.get?] at hget
      cases hget
      refine ⟨{ queryIndex := i, query := q.query,
                results := stage1FallbackResults (q.results.getD []) },
        ?_, by simp, rfl⟩
      simp only [stage1FallbackQueriesAux, if_pos hq]
      exact List.mem_cons_self ..
    | succ n =>
      simp only [List.get?] at hget
      rcases ih (i + 1) n hget with ⟨qa, hmem, hidx, hres⟩
      refine ⟨qa, ?_, by omega, hres⟩
      simp only [stage1FallbackQueriesAux]
      by_cases h0 : queryHasResults q0 = true
      · rw [if_pos h0]; exact List.mem_cons_of_mem _ hmem
      · rw [if_neg h0]; exact hmem

/-- Stage-1 fallback covers every subject. -/
theorem stage1ErrorFallbackAux_coverage (data : List PersonEgoData)
    (i pIdx : Nat) (p : PersonEgoData) (hget : data.get? pIdx = some p) :
    ∃ pa ∈ stage1ErrorFallbackAux i data, pa.personIndex = i + pIdx ∧
      pa.queries = stage1FallbackQueries p.negativeSearchResults := by
  induction data generalizing i pIdx with
  | nil => simp at hget
  | cons p0 rest ih =>
    cases pIdx with
    | zero =>
      simp only [List.get?] at hget
      cases hget
      exact ⟨{ personIndex := i,
               queries := stage1FallbackQueries p.negativeSearchResults },
        List.mem_cons_self .., by simp, rfl⟩
    | succ n =>
      simp only [List.get?] at hget
      rcases ih (i + 1) n hget with ⟨pa, hmem, hidx, hres⟩
      exact ⟨pa, List.mem_cons_of_mem _ hmem, by omega, hres⟩

/-- Stage-2 fallback covers every result index of a query. -/
theorem stage2FallbackResults_coverage (rs : List WebSearchResult) (rIdx : Nat)
    (h : rIdx < rs.length) :
    ∃ ra ∈ stage2FallbackResults rs, ra.resultIndex = rIdx ∧
      ra.isRelevant = true := by
  refine ⟨{ resultIndex := rIdx, isRelevant := true,
            reason := "AI判定エラー（要手動確認）", extractedName := none,
            nameMatch := none, isFraudRelated := none }, ?_, rfl, rfl⟩
  exact List.mem_map.mpr ⟨rIdx, List.mem_range.mpr h, rfl⟩

/-- Stage-2 fallback covers every query that had displayable results. -/
theorem stage2FallbackQueriesAux_coverage (qs : List QueryData) (i qIdx : Nat)
    (q : QueryData) (hget : qs.get? qIdx = some q)
    (hq : queryHasResults q = true) :
    ∃ qa ∈ stage2FallbackQueriesAux i qs, qa.queryIndex = i + qIdx ∧
      qa.results = stage2FallbackResults (q.results.getD []) := by
  induction qs generalizing i qIdx with
  | nil => simp at hget
  | cons q0 rest ih =>
    cases qIdx with
    | zero =>
      simp only [List.get?] at hget
      cases hget
      refine ⟨{ queryIndex := i, query := q.query,
                results := stage2FallbackResults (q.results.getD []) },
        ?_, by simp, rfl⟩
      simp only [stage2FallbackQueriesAux, if_pos hq]
      exact List.mem_cons_self ..
    | succ n =>
      simp only [List.get?] at hget
      rcases ih (i + 1) n hget with ⟨qa, hmem, hidx, hres⟩
      refine ⟨qa, ?_, by omega, hres⟩
      simp only [stage2FallbackQueriesAux]
      by_cases h0 : queryHasResults q0 = true
      · rw [if_pos h0]; exact List.mem_cons_of_mem _ hmem
      · rw [if_neg h0]; exact hmem

/-- Stage-2 fallback covers every subject. -/
theorem stage2ErrorFallbackAux_coverage (data : List PersonEgoData)
    (i pIdx : Nat) (p : PersonEgoData) (hget : data.get? pIdx = some p) :
    ∃ pa ∈ stage2ErrorFallbackAux i data, pa.personIndex = i + pIdx ∧
      pa.fraudSiteArticles =
        some (stage2FallbackFraudArticles p.fraudSiteResults) ∧
      pa.queries = stage2FallbackQueries p.negativeSearchResults := by
  induction data generalizing i pIdx with
  | nil => simp at hget
  | cons p0 rest ih =>
    cases pIdx with
    | zero =>
      simp only [List.get?] at hget
      cases hget
      exact ⟨{ personIndex := i,
               fraudSiteArticles :=
                 some (stage2FallbackFraudArticles p.fraudSiteResults),
               queries := stage2FallbackQueries p.negativeSearchResults },
        List.mem_cons_self .., by simp, rfl, rfl⟩
    | succ n =>
      simp only [List.get?] at hget
      rcases ih (i + 1) n hget with ⟨pa, hmem, hidx, hres⟩
      exact ⟨pa, List.mem_cons_of_mem _ hmem, by omega, hres⟩

/-- The stage-2 fraud fallback emits one verdict per article of every
qualifying fraud site. -/
theorem stage2FallbackFraudArticles_length (sites : List FraudSiteData) :
    (stage2FallbackFraudArticles sites).length =
      ((sites.filter fraudSiteHasArticles).map
        fun fs => (fs.articles.getD []).length).sum := by
  simp [stage2FallbackFraudArticles, List.length_flatMap, Function.comp_def]

/-- C4: on a stage-1 classification error every search result of every subject
that had results is defaulted to `needsFullCheck: true`, and on a stage-2
classification error every fraud-site article and every search result is
defaulted to `isRelevant: true` — the fallbacks cover every subject, every
query with displayable results, every result index and every article, so no
candidate is silently dropped at either stage. -/
theorem classifier_error_fallback_defaults :
    (∀ data pa qa ra, pa ∈ stage1ErrorFallback data → qa ∈ pa.queries →
      ra ∈ qa.results → ra.needsFullCheck = true) ∧
    (∀ data pIdx p, data.get? pIdx = some p →
      ∃ pa ∈ stage1ErrorFallback data, pa.personIndex = pIdx ∧
        pa.queries = stage1FallbackQueries p.negativeSearchResults) ∧
    (∀ qs qIdx q, qs.get? qIdx = some q → queryHasResults q = true →
      ∃ qa ∈ stage1FallbackQueries qs, qa.queryIndex = qIdx ∧
        ∀ rIdx < (q.results.getD []).length,
          ∃ ra ∈ qa.results, ra.resultIndex = rIdx ∧
            ra.needsFullCheck = true) ∧
    (∀ data pa, pa ∈ stage2ErrorFallback data →
      (∀ fa ∈ pa.fraudSiteArticles.getD [], fa.isRelevant = true) ∧
      (∀ qa ∈ pa.queries, ∀ ra ∈ qa.results, ra.isRelevant = true)) ∧
    (∀ data pIdx p, data.get? pIdx = some p →
      ∃ pa ∈ stage2ErrorFallback data, pa.personIndex = pIdx ∧
        pa.fraudSiteArticles =
          some (stage2FallbackFraudArticles p.fraudSiteResults) ∧
        pa.queries = stage2FallbackQueries p.negativeSearchResults) ∧
    (∀ sites, (stage2FallbackFraudArticles sites).length =
      ((sites.filter fraudSiteHasArticles).map
        fun fs => (fs.articles.getD []).length).sum) ∧
    (∀ qs qIdx q, qs.get? qIdx = some q → queryHasResults q = true →
      ∃ qa ∈ stage2FallbackQueries qs, qa.queryIndex = qIdx ∧
        ∀ rIdx < (q.results.getD []).length,
          ∃ ra ∈ qa.results, ra.resultIndex = rIdx ∧
            ra.isRelevant = true) := by
  refine ⟨?_, ?_, ?_, ?_, ?_, ?_, ?_⟩
  · intro data pa qa ra hpa hqa hra
    rcases stage1ErrorFallbackAux_queries 0 data pa hpa with ⟨p, _, hqs⟩
    rw [hqs] at hqa
    rcases stage1FallbackQueriesAux_results 0 _ qa hqa with ⟨rs0, hres⟩
    rw [hres] at hra
    exact stage1FallbackResults_needsFullCheck rs0 ra hra
  · intro data pIdx p hget
    rcases stage1ErrorFallbackAux_coverage data 0 pIdx p hget with
      ⟨pa, hmem, hidx, hqs⟩
    exact ⟨pa, hmem, by omega, hqs⟩
  · intro qs qIdx q hget hq
    rcases stage1FallbackQueriesAux_coverage qs 0 qIdx q hget hq with
      ⟨qa, hmem, hidx, hres⟩
    refine ⟨qa, hmem, by omega, ?_⟩
    intro rIdx hr
    rw [hres]
    exact stage1FallbackResults_coverage (q.results.getD []) rIdx hr
  · intro data pa hpa
    rcases stage2ErrorFallbackAux_fields 0 data pa hpa with ⟨p, _, hfa, hqs⟩
    constructor
    · intro fa hmem
      rw [hfa] at hmem
      exact (stage2FallbackFraudArticles_fields p.fraudSiteResults fa hmem).1
    · intro qa hqa ra hra
      rw [hqs] at hqa
      rcases stage2FallbackQueriesAux_results 0 _ qa hqa with ⟨rs0, hres⟩
      rw [hres] at hra
      exact (stage2FallbackResults_fields rs0 ra hra).1
  · intro data pIdx p hget
    rcases stage2ErrorFallbackAux_coverage data 0 pIdx p hget with
      ⟨pa, hmem, hidx, hfields⟩
    exact ⟨pa, hmem, by omega, hfields⟩
  · exact stage2FallbackFraudArticles_length
  · intro qs qIdx q hget hq
    rcases stage2FallbackQueriesAux_coverage qs 0 qIdx q hget hq with
      ⟨qa, hmem, hidx, hres⟩
    refine ⟨qa, hmem, by omega, ?_⟩
    intro rIdx hr
    rw [hres]
    exact stage2FallbackResults_coverage (q.results.getD []) rIdx hr

/-- Witness for C4: the fallbacks applied to concrete ego-search data flag the
concrete result for full check and the concrete fraud article as relevant. -/
theorem classifier_error_fallback_defaults_witness :
    sampleFallbackResult1.needsFullCheck = true ∧
    sampleFallbackFraudVerdict.isRelevant = true := by
  constructor
  · exact classifier_error_fallback_defaults.1 [samplePersonEgoData]
      sampleStage1FallbackPerson sampleStage1FallbackQuery sampleFallbackResult1
      (List.mem_singleton.mpr rfl) (List.mem_singleton.mpr rfl)
      (List.mem_singleton.mpr rfl)
  · exact (classifier_error_fallback_defaults.2.2.2.1 [samplePersonEgoData]
      sampleStage2FallbackPerson (List.mem_singleton.mpr rfl)).1
      sampleFallbackFraudVerdict (List.mem_singleton.mpr rfl)

/-- Every stage-1 event is a triage event (per result list). -/
theorem stage1EventsForResults_isTriage (p q : Nat) (rs : List ResultAnalysis1)
    (e : Phase3Event) (h : e ∈ stage1EventsForResults p q rs) :
    isTriageEvent e = true := by
  induction rs with
  | nil => simp [stage1EventsForResults] at h
  | cons r rest ih =>
    rcases List.mem_cons.mp h with rfl | h
    · rfl
    · exact ih h

/-- Every stage-1 event is a triage event (per query list). -/
theorem stage1EventsForQueries_isTriage (p : Nat) (qs : List QueryAnalysis1)
    (e : Phase3Event) (h : e ∈ stage1EventsForQueries p qs) :
    isTriageEvent e = true := by
  induction qs with
  | nil => simp [stage1EventsForQueries] at h
  | cons q rest ih =>
    rcases List.mem_append.mp h with h | h
    · exact stage1EventsForResults_isTriage p q.queryIndex q.results e h
    · exact ih h

/-- Every stage-1 event is a triage event. -/
theorem stage1Events_isTriage (s1 : List PersonAnalysis1) (e : Phase3Event)
    (h : e ∈ stage1Events s1) : isTriageEvent e = true := by
  induction s1 with
  | nil => simp [stage1Events] at h
  | cons pa rest ih =>
    rcases List.mem_append.mp h with h | h
    · exact stage1EventsForQueries_isTriage pa.personIndex pa.queries e h
    · exact ih h

/-- Every stage-1.5 event is a fetch event (per result list). -/
theorem fetchForResults_isFetch (qa : QueryAnalysis1) (p0 q0 i : Nat)
    (rs : List WebSearchResult) (e : Phase3Event)
    (h : e ∈ fetchForResults qa p0 q0 i rs) : isFetchEvent e = true := by
  induction rs generalizing i with
  | nil => simp [fetchForResults] at h
  | cons hd rest ih =>
    simp only [fetchForResults] at h
    rcases List.mem_append.mp h with h | h
    · by_cases hg : fetchGate qa i = true
      · rw [if_pos hg] at h
        rw [List.mem_singleton.mp h]
        rfl
      · rw [if_neg hg] at h
        simp at h
    · exact ih (i + 1) h

/-- Every stage-1.5 event is a fetch event (per query list). -/
theorem fetchForQueries_isFetch (pa : PersonAnalysis1) (p0 i : Nat)
    (qs : List QueryData) (e : Phase3Event)
    (h : e ∈ fetchForQueries pa p0 i qs) : isFetchEvent e = true := by
  induction qs generalizing i with
  | nil => simp [fetchForQueries] at h
  | cons hd rest ih =>
    simp only [fetchForQueries] at h
    rcases List.mem_append.mp h with h | h
    · cases hfq : pa.queries.find? fun qa => qa.queryIndex == i with
      | some qa =>
        cases hres : hd.results with
        | some rs =>
          rw [hfq, hres] at h
          exact fetchForResults_isFetch qa p0 i 0 rs e h
        | none => rw [hfq, hres] at h; simp at h
      | none =>
        rw [hfq] at h
        cases hd.results <;> simp at h
    · exact ih (i + 1) h

/-- Every stage-1.5 event is a fetch event. -/
theorem fetchForPersons_isFetch (s1 : List PersonAnalysis1) (i : Nat)
    (data : List PersonEgoData) (e : Phase3Event)
    (h : e ∈ fetchForPersons s1 i data) : isFetchEvent e = true := by
  induction data generalizing i with
  | nil => simp [fetchForPersons] at h
  | cons hd rest ih =>
    simp only [fetchForPersons] at h
    rcases List.mem_append.mp h with h | h
    · cases hfp : s1.find? fun pa => pa.personIndex == i with
      | some pa =>
        rw [hfp] at h
        exact fetchForQueries_isFetch pa i 0 hd.negativeSearchResults e h
      | none => rw [hfp] at h; simp at h
    · exact ih (i + 1) h

/-- An open fetch gate means a verdict with `needsFullCheck` exists. -/
theorem fetchGate_inv (qa : QueryAnalysis1) (rIdx : Nat)
    (h : fetchGate qa rIdx = true) :
    ∃ ra, (qa.results.find? fun x => x.resultIndex == rIdx) = some ra ∧
      ra.needsFullCheck = true := by
  unfold fetchGate at h
  cases hf : qa.results.find? fun x => x.resultIndex == rIdx with
  | none => rw [hf] at h; exact absurd h (by simp)
  | some ra => rw [hf] at h; exact ⟨ra, rfl, h⟩

/-- Inversion: a fetch event of one query names that query's person and query
indices and an open gate at its result index. -/
theorem fetchForResults_inv (qa : QueryAnalysis1) (p0 q0 i : Nat)
    (rs : List WebSearchResult) (p q r : Nat)
    (h : Phase3Event.articleFetch p q r ∈ fetchForResults qa p0 q0 i rs) :
    p = p0 ∧ q = q0 ∧ fetchGate qa r = true := by
  induction rs generalizing i with
  | nil => simp [fetchForResults] at h
  | cons hd rest ih =>
    simp only [fetchForResults] at h
    rcases List.mem_append.mp h with h | h
    · by_cases hg : fetchGate qa i = true
      · rw [if_pos hg] at h
        have hEq := List.mem_singleton.mp h
        obtain ⟨h1, h2, h3⟩ := Phase3Event.articleFetch.inj hEq
        exact ⟨h1, h2, h3 ▸ hg⟩
      · rw [if_neg hg] at h
        simp at h
    · exact ih (i + 1) h

/-- Inversion: a fetch event of one person names a stage-1 query analysis found
by its query index, with an open gate at its result index. -/
theorem fetchForQueries_inv (pa : PersonAnalysis1) (p0 i : Nat)
    (qs : List QueryData) (p q r : Nat)
    (h : Phase3Event.articleFetch p q r ∈ fetchForQueries pa p0 i qs) :
    p = p0 ∧ ∃ qa, (pa.queries.find? fun x => x.queryIndex == q) = some qa ∧
      fetchGate qa r = true := by
  induction qs generalizing i with
  | nil => simp [fetchForQueries] at h
  | cons hd rest ih =>
    simp only [fetchForQueries] at h
    rcases List.mem_append.mp h with h | h
    · cases hfq : pa.queries.find? fun qa => qa.queryIndex == i with
      | some qa =>
        cases hres : hd.results with
        | some rs =>
          rw [hfq, hres] at h
          rcases fetchForResults_inv qa p0 i 0 rs p q r h with ⟨h1, h2, h3⟩
          exact ⟨h1, qa, h2 ▸ hfq, h3⟩
        | none => rw [hfq, hres] at h; simp at h
      | none =>
        rw [hfq] at h
        cases hd.results <;> simp at h
    · exact ih (i + 1) h

/-- Inversion: a fetch event names a stage-1 person analysis found by its
person index, a query analysis found by its query index, and an open gate at
its result index. -/
theorem fetchForPersons_inv (s1 : List PersonAnalysis1) (i : Nat)
    (data : List PersonEgoData) (p q r : Nat)
    (h : Phase3Event.articleFetch p q r ∈ fetchForPersons s1 i data) :
    ∃ pa, (s1.find? fun x => x.personIndex == p) = some pa ∧
      ∃ qa, (pa.queries.find? fun x => x.queryIndex == q) = some qa ∧
        fetchGate qa r = true := by
  induction data generalizing i with
  | nil => simp [fetchForPersons] at h
  | cons hd rest ih =>
    simp only [fetchForPersons] at h
    rcases List.mem_append.mp h with h | h
    · cases hfp : s1.find? fun pa => pa.personIndex == i with
      | some pa =>
        rw [hfp] at h
        rcases fetchForQueries_inv pa i 0 hd.negativeSearchResults p q r h with
          ⟨h1, qa, h2, h3⟩
        exact ⟨pa, h1 ▸ hfp, qa, h2, h3⟩
      | none => rw [hfp] at h; simp at h
    · exact ih (i + 1) h

/-- The completed stage-1 result emits a triage event for every verdict (per
result list). -/
theorem mem_stage1EventsForResults (p q : Nat) (rs : List ResultAnalysis1)
    (ra : ResultAnalysis1) (h : ra ∈ rs) :
    Phase3Event.stage1Triage p q ra.resultIndex ra.needsFullCheck ∈
      stage1EventsForResults p q rs := by
  induction rs with
  | nil => simp at h
  | cons hd rest ih =>
    rcases List.mem_cons.mp h with rfl | h
    · exact List.mem_cons_self ..
    · exact List.mem_cons_of_mem _ (ih h)

/-- The completed stage-1 result emits a triage event for every verdict (per
query list). -/
theorem mem_stage1EventsForQueries (p : Nat) (qs : List QueryAnalysis1)
    (qa : QueryAnalysis1) (h : qa ∈ qs) (e : Phase3Event)
    (he : e ∈ stage1EventsForResults p qa.queryIndex qa.results) :
    e ∈ stage1EventsForQueries p qs := by
  induction qs with
  | nil => simp at h
  | cons hd rest ih =>
    rcases List.mem_cons.mp h with rfl | h
    · exact List.mem_append.mpr (Or.inl he)
    · exact List.mem_append.mpr (Or.inr (ih h))

/-- The completed stage-1 result emits a triage event for every verdict. -/
theorem mem_stage1Events (s1 : List PersonAnalysis1) (pa : PersonAnalysis1)
    (h : pa ∈ s1) (e : Phase3Event)
    (he : e ∈ stage1EventsForQueries pa.personIndex pa.queries) :
    e ∈ stage1Events s1 := by
  induction s1 with
  | nil => simp at h
  | cons hd rest ih =>
    rcases List.mem_cons.mp h with rfl | h
    · exact List.mem_append.mpr (Or.inl he)
    · exact List.mem_append.mpr (Or.inr (ih h))

/-- C5: in the step-6 trace, every stage-1 triage event precedes every article
fetch (stage 1 completes over all queries of all subjects before any stage-2
fetch begins), and an article is fetched only if stage 1 flagged that very
(person, query, result) with `needsFullCheck = true`. -/
theorem stage1_completes_before_any_fetch (data : List PersonEgoData)
    (s1 : List PersonAnalysis1) :
    (∀ i j e₁ e₂, (phase3Stage6Trace data s1).get? i = some e₁ →
      (phase3Stage6Trace data s1).get? j = some e₂ →
      isTriageEvent e₁ = true → isFetchEvent e₂ = true → i < j) ∧
    (∀ p q r, Phase3Event.articleFetch p q r ∈ phase3Stage6Trace data s1 →
      Phase3Event.stage1Triage p q r true ∈ phase3Stage6Trace data s1) := by
  constructor
  · intro i j e₁ e₂ h1 h2 ht hf
    have hiA : i < (stage1Events s1).length := by
      by_contra hge
      have hle : (stage1Events s1).length ≤ i := Nat.le_of_not_lt hge
      rw [phase3Stage6Trace, List.get?_append_right hle] at h1
      have hmem := List.get?_mem h1
      have := fetchForPersons_isFetch s1 0 data e₁ hmem
      cases e₁ <;> simp [isTriageEvent, isFetchEvent] at ht this
    have hjB : (stage1Events s1).length ≤ j := by
      by_contra hlt
      have hj : j < (stage1Events s1).length := Nat.lt_of_not_le hlt
      rw [phase3Stage6Trace, List.get?_append hj] at h2
      have hmem := List.get?_mem h2
      have := stage1Events_isTriage s1 e₂ hmem
      cases e₂ <;> simp [isTriageEvent, isFetchEvent] at hf this
    omega
  · intro p q r h
    rcases List.mem_append.mp h with h | h
    · have := stage1Events_isTriage s1 _ h
      simp [isTriageEvent] at this
    · rcases fetchForPersons_inv s1 0 data p q r h with ⟨pa, hfp, qa, hfq, hg⟩
      rcases fetchGate_inv qa r hg with ⟨ra, hfr, hn⟩
      have hpa := List.mem_of_find?_eq_some hfp
      have hpi : pa.personIndex = p := by
        have := List.find?_some hfp
        simpa using this
      have hqa := List.mem_of_find?_eq_some hfq
      have hqi : qa.queryIndex = q := by
        have := List.find?_some hfq
        simpa using this
      have hra := List.mem_of_find?_eq_some hfr
      have hri : ra.resultIndex = r := by
        have := List.find?_some hfr
        simpa using this
      have hmem : Phase3Event.stage1Triage pa.personIndex qa.queryIndex
          ra.resultIndex ra.needsFullCheck ∈ stage1Events s1 :=
        mem_stage1Events s1 pa hpa _
          (mem_stage1EventsForQueries pa.personIndex pa.queries qa hqa _
            (mem_stage1EventsForResults pa.personIndex qa.queryIndex
              qa.results ra hra))
      rw [hpi, hqi, hri, hn] at hmem
      exact List.mem_append.mpr (Or.inl hmem)

/-- Witness for C5 on concrete data: the trace of one subject with one flagged
result orders triage before fetch, and the fetched result was flagged. -/
theorem stage1_completes_before_any_fetch_witness :
    (0 : Nat) < 1 ∧
    Phase3Event.stage1Triage 0 0 0 true ∈
      phase3Stage6Trace [samplePersonEgoData] [samplePersonAnalysis1] := by
  constructor
  · exact (stage1_completes_before_any_fetch [samplePersonEgoData]
      [samplePersonAnalysis1]).1 0 1
      (Phase3Event.stage1Triage 0 0 0 true) (Phase3Event.articleFetch 0 0 0)
      (by decide) (by decide) (by decide) (by decide)
  · exact (stage1_completes_before_any_fetch [samplePersonEgoData]
      [samplePersonAnalysis1]).2 0 0 0 (by decide)

/-- C6: a failure confined to one unit never aborts its siblings — the
classification batch yields one output per document, each depending only on
its own outcome, with a failed document retained as `documentType: "分類不能"`
and empty facts; the negative-search loop yields one record per query, each
depending only on its own outcome, with a failed query recorded as
`found: false`. -/
theorem batch_resilience_documents_and_queries :
    (∀ docs : List (OcrDocument × Except Unit ClassificationLLM),
      (classifyDocuments docs).length = docs.length) ∧
    (∀ docs i pr, docs.get? i = some pr →
      (classifyDocuments docs).get? i = some (classifyDocument pr)) ∧
    (∀ docs i doc, docs.get? i = some (doc, Except.error ()) →
      (classifyDocuments docs).get? i =
        some { fileName := doc.fileName, text := doc.text,
               documentType := "分類不能", extractedFacts := [] }) ∧
    (∀ qos : List (String × Except Unit (List RawSearchResult)),
      (runNegativeSearches qos).length = qos.length) ∧
    (∀ qos i pr, qos.get? i = some pr →
      (runNegativeSearches qos).get? i = some (runNegativeQuery pr.1 pr.2)) ∧
    (∀ qos i q, qos.get? i = some (q, Except.error ()) →
      (runNegativeSearches qos).get? i =
        some { query := q, found := false, results := none }) := by
  refine ⟨?_, ?_, ?_, ?_, ?_, ?_⟩
  · intro docs
    exact List.length_map ..
  · intro docs i pr hget
    rw [classifyDocuments, List.get?_map, hget]
    rfl
  · intro docs i doc hget
    rw [classifyDocuments, List.get?_map, hget]
    rfl
  · intro qos
    exact List.length_map ..
  · intro qos i pr hget
    rw [runNegativeSearches, List.get?_map, hget]
    rfl
  · intro qos i q hget
    rw [runNegativeSearches, List.get?_map, hget]
    rfl

/-- Witness for C6: in a concrete batch whose second document's classification
call fails, the first document keeps its classification and the second is
retained as unclassifiable; a failing concrete query is recorded with
`found: false`. -/
theorem batch_resilience_documents_and_queries_witness :
    (classifyDocuments
      [(sampleDoc1, Except.ok sampleClassification),
       (sampleDoc2, Except.error ())]).get? 0 =
      some (classifyDocument (sampleDoc1, Except.ok sampleClassification)) ∧
    (classifyDocuments
      [(sampleDoc1, Except.ok sampleClassification),
       (sampleDoc2, Except.error ())]).get? 1 =
      some { fileName := "謄本.pdf", text := "登記情報 株式会社△△",
             documentType := "分類不能", extractedFacts := [] } ∧
    (runNegativeSearches [("山田太郎 詐欺", Except.error ())]).get? 0 =
      some { query := "山田太郎 詐欺", found := false, results := none } := by
  refine ⟨?_, ?_, ?_⟩
  · exact batch_resilience_documents_and_queries.2.1
      [(sampleDoc1, Except.ok sampleClassification),
       (sampleDoc2, Except.error ())] 0
      (sampleDoc1, Except.ok sampleClassification) rfl
  · exact batch_resilience_documents_and_queries.2.2.1
      [(sampleDoc1, Except.ok sampleClassification),
       (sampleDoc2, Except.error ())] 1 sampleDoc2 rfl
  · exact batch_resilience_documents_and_queries.2.2.2.2.2
      [("山田太郎 詐欺", Except.error ())] 0 "山田太郎 詐欺" rfl

/-- C7: for every combination of present and absent phase results,
`buildInputData` returns the complete typed structure, substituting every
absent phase (and every absent sub-field of a present phase) with its explicit
empty/placeholder block ("不一致", "なし", "未実施", "Phase 3未実行", empty
arrays, zero counters); being total, it never fails on missing upstream
results. -/
theorem buildInputData_placeholders (rid : String) (p1 : Option Phase1Results)
    (p2 : Option Phase2Results) (p3 : Option Phase3Results) (k : KintoneData) :
    (p1 = none → (buildInputData rid p1 p2 p3 k).phase1 =
      { purchaseDocuments := [], collateralDocuments := [],
        purchaseVerification := defaultPurchaseVerification,
        collateralExtraction := defaultCollateralExtraction }) ∧
    (p2 = none → (buildInputData rid p1 p2 p3 k).phase2 =
      { mainBankAnalysis := defaultMainBankAnalysis,
        factoringAnalysis := defaultFactoringAnalysis }) ∧
    (p3 = none → (buildInputData rid p1 p2 p3 k).phase3 =
      { identityCheck := defaultIdentityCheck,
        applicantEgoSearch := defaultApplicantEgoSearch,
        companyExistence := defaultCompanyExistence,
        representativeRisk := defaultRepresentativeRisk }) ∧
    (∀ x, p1 = some x → x.purchaseDocuments = none →
      (buildInputData rid p1 p2 p3 k).phase1.purchaseDocuments = []) ∧
    (∀ x, p1 = some x → x.collateralDocuments = none →
      (buildInputData rid p1 p2 p3 k).phase1.collateralDocuments = []) ∧
    (∀ x, p1 = some x → x.purchaseVerification = none →
      (buildInputData rid p1 p2 p3 k).phase1.purchaseVerification =
        defaultPurchaseVerification) ∧
    (∀ x, p1 = some x → x.collateralExtraction = none →
      (buildInputData rid p1 p2 p3 k).phase1.collateralExtraction =
        defaultCollateralExtraction) ∧
    (∀ x, p2 = some x → x.mainBankAnalysis = none →
      (buildInputData rid p1 p2 p3 k).phase2.mainBankAnalysis =
        defaultMainBankAnalysis) ∧
    (∀ x, p2 = some x → x.factoringAnalysis = none →
      (buildInputData rid p1 p2 p3 k).phase2.factoringAnalysis =
        defaultFactoringAnalysis) ∧
    (∀ x, p3 = some x → x.identityCheck = none →
      (buildInputData rid p1 p2 p3 k).phase3.identityCheck =
        defaultIdentityCheck) ∧
    (∀ x, p3 = some x → x.applicantEgoSearch = none →
      (buildInputData rid p1 p2 p3 k).phase3.applicantEgoSearch =
        defaultApplicantEgoSearch) ∧
    (∀ x, p3 = some x → x.companyExistence = none →
      (buildInputData rid p1 p2 p3 k).phase3.companyExistence =
        defaultCompanyExistence) ∧
    (∀ x, p3 = some x → x.representativeRisk = none →
      (buildInputData rid p1 p2 p3 k).phase3.representativeRisk =
        defaultRepresentativeRisk) ∧
    (buildInputData rid p1 p2 p3 k).recordId = rid ∧
    (buildInputData rid p1 p2 p3 k).kintone = k := by
  refine ⟨?_, ?_, ?_, ?_, ?_, ?_, ?_, ?_, ?_, ?_, ?_, ?_, ?_, rfl, rfl⟩
  · rintro rfl; rfl
  · rintro rfl; rfl
  · rintro rfl; rfl
  all_goals rintro x rfl hx
  all_goals simp [buildInputData, hx]

/-- Witness for C7 with all phase results absent. -/
theorem buildInputData_placeholders_witness :
    (buildInputData "9918" none none none { fields := [] }).phase3 =
      { identityCheck := defaultIdentityCheck,
        applicantEgoSearch := defaultApplicantEgoSearch,
        companyExistence := defaultCompanyExistence,
        representativeRisk := defaultRepresentativeRisk } :=
  (buildInputData_placeholders "9918" none none none
    { fields := [] }).2.2.1 rfl

/-- `pickOutflow` returns the first eligible outflow: everything before it in
the outflow list is ineligible, and the remainder is the list without it. -/
theorem pickOutflow_spec (inflow : DebtFlow) (outs : List DebtFlow)
    (o : DebtFlow) (rest : List DebtFlow)
    (h : pickOutflow inflow outs = some (o, rest)) :
    pairEligible inflow o = true ∧
    ∃ pre post, outs = pre ++ o :: post ∧ rest = pre ++ post ∧
      ∀ o2 ∈ pre, pairEligible inflow o2 = false := by
  induction outs generalizing o rest with
  | nil => simp [pickOutflow] at h
  | cons hd tl ih =>
    simp only [pickOutflow] at h
    by_cases hg : pairEligible inflow hd = true
    · rw [if_pos hg] at h
      injection h with h2
      injection h2 with h3 h4
      subst h3
      subst h4
      exact ⟨hg, [], tl, rfl, rfl, by simp⟩
    · rw [if_neg hg] at h
      have hgf : pairEligible inflow hd = false := by
        simpa using hg
      cases hp : pickOutflow inflow tl with
      | none => rw [hp] at h; exact absurd h (by simp)
      | some pr =>
        obtain ⟨o2, rest2⟩ := pr
        rw [hp] at h
        have h2 : some (o2, hd :: rest2) = some (o, rest) := h
        injection h2 with h3
        injection h3 with h4 h5
        subst h4
        subst h5
        rcases ih o2 rest2 hp with ⟨helig, pre, post, houts, hrest, hpre⟩
        refine ⟨helig, hd :: pre, post, ?_, ?_, ?_⟩
        · rw [houts]; rfl
        · rw [hrest]; rfl
        · intro x hx
          rcases List.mem_cons.mp hx with rfl | hx
          · exact hgf
          · exact hpre x hx

/-- `pickOutflow` fails exactly when no outflow is eligible. -/
theorem pickOutflow_eq_none (inflow : DebtFlow) (outs : List DebtFlow) :
    pickOutflow inflow outs = none ↔
      ∀ o ∈ outs, pairEligible inflow o = false := by
  induction outs with
  | nil => simp [pickOutflow]
  | cons hd tl ih =>
    simp only [pickOutflow, List.mem_cons]
    by_cases hg : pairEligible inflow hd = true
    · rw [if_pos hg]
      constructor
      · intro hfalse
        exact absurd hfalse (by simp)
      · intro hall
        have hhd := hall hd (Or.inl rfl)
        rw [hg] at hhd
        exact absurd hhd (by simp)
    · rw [if_neg hg]
      have hgf : pairEligible inflow hd = false := by simpa using hg
      cases hp : pickOutflow inflow tl with
      | none =>
        constructor
        · intro _ o ho
          rcases ho with rfl | ho
          · exact hgf
          · exact ih.mp hp o ho
        · intro _
          rfl
      | some pr =>
        obtain ⟨o2, rest2⟩ := pr
        constructor
        · intro hfalse
          exact absurd hfalse (by simp)
        · intro hall
          have helig := (pickOutflow_spec inflow tl o2 rest2 hp).1
          have hmem : o2 ∈ tl := by
            rcases (pickOutflow_spec inflow tl o2 rest2 hp).2 with
              ⟨pre, post, houts, _, _⟩
            rw [houts]
            exact List.mem_append.mpr (Or.inr (List.mem_cons_self ..))
          rw [hall o2 (Or.inr hmem)] at helig
          exact absurd helig (by simp)

/-- Every pair produced by the greedy pairing is eligible. -/
theorem greedyPairCycles_eligible (ins outs : List DebtFlow) (i o : DebtFlow)
    (h : (i, o) ∈ (greedyPairCycles ins outs).1) :
    pairEligible i o = true := by
  induction ins generalizing outs with
  | nil => simp [greedyPairCycles] at h
  | cons hd tl ih =>
    simp only [greedyPairCycles] at h
    cases hp : pickOutflow hd outs with
    | some pr =>
      obtain ⟨o1, rest⟩ := pr
      rw [hp] at h
      rcases List.mem_cons.mp h with hEq | h
      · injection hEq with h3 h4
        subst h3
        subst h4
        exact (pickOutflow_spec i outs o rest hp).1
      · exact ih rest h
    | none =>
      rw [hp] at h
      exact ih outs h

/-- C3 (modelled from the spec, the analyzer implementation being absent from
src/): an inflow is paired with an outflow only when the outflow amount is
90%–115% of the inflow amount and the outflow date strictly follows the
inflow date; the head (earliest) inflow pairs with the first eligible outflow
when one exists, everything earlier in the outflow list being ineligible, and
goes to the unpaired list (leaving the outflows untouched) when none
exists. -/
theorem debt_cycle_greedy_pairing (ins outs : List DebtFlow) :
    (∀ i o, (i, o) ∈ (greedyPairCycles ins outs).1 →
      i.date < o.date ∧ 90 * i.amount ≤ 100 * o.amount ∧
        100 * o.amount ≤ 115 * i.amount) ∧
    (∀ i, (∃ o ∈ outs, pairEligible i o = true) →
      ∃ o rest pre post, pickOutflow i outs = some (o, rest) ∧
        greedyPairCycles (i :: ins) outs =
          ((i, o) :: (greedyPairCycles ins rest).1,
            (greedyPairCycles ins rest).2) ∧
        outs = pre ++ o :: post ∧ rest = pre ++ post ∧
        pairEligible i o = true ∧
        (∀ o2 ∈ pre, pairEligible i o2 = false)) ∧
    (∀ i, (∀ o ∈ outs, pairEligible i o = false) →
      greedyPairCycles (i :: ins) outs =
        ((greedyPairCycles ins outs).1,
          i :: (greedyPairCycles ins outs).2)) := by
  refine ⟨?_, ?_, ?_⟩
  · intro i o h
    have helig := greedyPairCycles_eligible ins outs i o h
    simpa [pairEligible, and_assoc] using helig
  · intro i hex
    cases hp : pickOutflow i outs with
    | none =>
      rcases hex with ⟨o, ho, helig⟩
      rw [(pickOutflow_eq_none i outs).mp hp o ho] at helig
      exact absurd helig (by simp)
    | some pr =>
      obtain ⟨o, rest⟩ := pr
      rcases pickOutflow_spec i outs o rest hp with
        ⟨helig, pre, post, houts, hrest, hpre⟩
      refine ⟨o, rest, pre, post, ?_, ?_, ?_, ?_, ?_, ?_⟩
      · rfl
      · simp [greedyPairCycles, hp]
      · exact houts
      · exact hrest
      · exact helig
      · exact hpre
  · intro i hall
    have hp : pickOutflow i outs = none := (pickOutflow_eq_none i outs).mpr hall
    simp [greedyPairCycles, hp]

/-- Witness for C3 on the spec's concrete scenarios: a ¥500,000 inflow on day 1
pairs with a ¥540,000 outflow on day 10 (108%, within 90%–115%), and an
inflow with no outflows is left unpaired. -/
theorem debt_cycle_greedy_pairing_witness :
    ((1 : Nat) < 10 ∧ 90 * 500000 ≤ 100 * 540000 ∧
      100 * 540000 ≤ 115 * 500000) ∧
    greedyPairCycles [⟨3, 100⟩] ([] : List DebtFlow) =
      ([], [⟨3, 100⟩]) := by
  constructor
  · exact (debt_cycle_greedy_pairing [⟨1, 500000⟩] [⟨10, 540000⟩]).1
      ⟨1, 500000⟩ ⟨10, 540000⟩ (by decide)
  · exact (debt_cycle_greedy_pairing [] ([] : List DebtFlow)).2.2
      ⟨3, 100⟩ (by simp)
